import Mathlib

/-
Verification development for the route-exposure computation scripts
(scripts/compute_route_exposure.py, generation V1, and
scripts/compute_route_exposure_v2.py, generation V2).

Modelling conventions:
* Python floats are modelled by an arbitrary linear ordered field K
  (instantiated at ℚ for concrete evaluations and at ℝ for the
  transcendental parts); arithmetic is exact.
* The geographic-to-planar projection (pyproj Transformer), the
  trigonometric bearing-to-unit-vector computation
  (dx = sin(radians(deg)), dy = cos(radians(deg))) and, where a claim
  is generic in it, the haversine distance are threaded as explicit
  function parameters (proj, dirVec, distfn); the real-valued
  instantiations (dir_vector, haversine_km over ℝ) are defined below
  and tie the parameters back to the source.
* math.log is threaded as a parameter logfn into the V1 pipeline; the
  real instantiation uses Real.log (see logFetchScore).
* numpy.arange(step, max + step, step) enumerates step*k for
  k = 1 .. ceil(max/step); the ray-marching loop is modelled by the
  fuelled recursion castLoop with exactly that index range.
* Python round(x, p) is banker's rounding; it is modelled by
  round_to p, built on Mathlib's round (round-half-up).  The two agree
  except at exact ties x * 10^p = n + 1/2 with n even; the only tie a
  statement below depends on (7.5, in the C7 counterexample) has n = 7
  odd, where both conventions round up to 8.
* Python's sorted(...) is a stable sort; it is modelled by
  List.mergeSort, which is also stable, with the same comparator, so
  the outputs are identical.
* A Python dict with string keys, filled in a fixed iteration order,
  is modelled by an association list in that order; dict[k] lookups
  that may fail (KeyError) are modelled by Option.
-/

section DataModel

variable (K : Type) [LinearOrderedField K]

/-- A WGS84 latitude/longitude pair, as in the PORTS table. -/
structure GeoPoint where
  lat : K
  lon : K
deriving Repr, DecidableEq

/-- An expected-distance window from EXPECTED_DISTANCES (v2). -/
structure Window where
  min : K
  max : K
  expected : K
deriving Repr, DecidableEq

/-- Woods Hole (41.5234, -70.6693), as an exact fraction. -/
def woodsHolePt : GeoPoint K := ⟨415234 / 10000, -706693 / 10000⟩

/-- Hyannis (41.6362, -70.2826). -/
def hyannisPt : GeoPoint K := ⟨416362 / 10000, -702826 / 10000⟩

/-- Vineyard Haven (41.4535, -70.6036). -/
def vineyardHavenPt : GeoPoint K := ⟨414535 / 10000, -706036 / 10000⟩

/-- Oak Bluffs (41.4571, -70.5566). -/
def oakBluffsPt : GeoPoint K := ⟨414571 / 10000, -705566 / 10000⟩

/-- Nantucket (41.2835, -70.0995). -/
def nantucketPt : GeoPoint K := ⟨412835 / 10000, -700995 / 10000⟩

/-- The PORTS table, identical in both scripts. -/
def PORTS : List (String × GeoPoint K) :=
  [("woods-hole", woodsHolePt K),
   ("hyannis", hyannisPt K),
   ("vineyard-haven", vineyardHavenPt K),
   ("oak-bluffs", oakBluffsPt K),
   ("nantucket", nantucketPt K)]

/-- The ROUTES table (route_id, origin slug, destination slug),
identical in both scripts. -/
def ROUTES : List (String × String × String) :=
  [("wh-vh-ssa", "woods-hole", "vineyard-haven"),
   ("vh-wh-ssa", "vineyard-haven", "woods-hole"),
   ("wh-ob-ssa", "woods-hole", "oak-bluffs"),
   ("ob-wh-ssa", "oak-bluffs", "woods-hole"),
   ("hy-nan-ssa", "hyannis", "nantucket"),
   ("nan-hy-ssa", "nantucket", "hyannis"),
   ("hy-nan-hlc", "hyannis", "nantucket"),
   ("nan-hy-hlc", "nantucket", "hyannis"),
   ("hy-vh-hlc", "hyannis", "vineyard-haven"),
   ("vh-hy-hlc", "vineyard-haven", "hyannis")]

/-- The 16-point compass rose with wind-from bearings in degrees,
identical in both scripts (22.5-degree increments written as exact
fractions). -/
def COMPASS_DIRECTIONS : List (String × K) :=
  [("N", 0), ("NNE", 45 / 2), ("NE", 45), ("ENE", 135 / 2),
   ("E", 90), ("ESE", 225 / 2), ("SE", 135), ("SSE", 315 / 2),
   ("S", 180), ("SSW", 405 / 2), ("SW", 225), ("WSW", 495 / 2),
   ("W", 270), ("WNW", 585 / 2), ("NW", 315), ("NNW", 675 / 2)]

/-- The EXPECTED_DISTANCES validation table of compute_route_exposure_v2.py
((origin slug, dest slug), km window). -/
def EXPECTED_DISTANCES : List ((String × String) × Window K) :=
  [(("woods-hole", "vineyard-haven"), ⟨8, 12, 10⟩),
   (("woods-hole", "oak-bluffs"), ⟨8, 14, 11⟩),
   (("hyannis", "nantucket"), ⟨40, 48, 44⟩),
   (("hyannis", "vineyard-haven"), ⟨35, 45, 40⟩)]

end DataModel

/-- The names of the 16 compass directions in enumeration order. -/
def compassNames : List String :=
  ["N", "NNE", "NE", "ENE", "E", "ESE", "SE", "SSE",
   "S", "SSW", "SW", "WSW", "W", "WNW", "NW", "NNW"]

section SharedCore

variable {K : Type} [LinearOrderedField K]

/-- PORTS[slug]: dict lookup, modelled by Option (a missing slug is a
KeyError in the source). -/
def lookupPort (slug : String) : Option (GeoPoint K) :=
  (PORTS K).lookup slug

/-- The body of sample_route_points after the two endpoints have been
projected to planar coordinates: n points at parameters
t_i = (i + 0.5) / n along the segment from p1 to p2.  This loop is
identical in both scripts. -/
def samplePlanar (p1 p2 : K × K) (n_points : ℕ) : List (K × K) :=
  (List.range n_points).map fun (i : ℕ) =>
    let t : K := ((i : K) + 1 / 2) / (n_points : K)
    (p1.1 + t * (p2.1 - p1.1), p1.2 + t * (p2.2 - p1.2))

/-- The planar position tested by the ray-marching loop at cumulative
step index k (distance k * step_m from the start, never k = 0). -/
def rayProbe (point dir : K × K) (step_m : K) (k : ℕ) : K × K :=
  (point.1 + dir.1 * ((k : K) * step_m), point.2 + dir.2 * ((k : K) * step_m))

/-- The for-loop of compute_fetch_distance / cast_ray_to_land: starting
at step index k with the given amount of fuel (remaining iterations),
return the first index whose probe point the land mask contains, or
none.  Identical in both scripts. -/
def castLoop (point dir : K × K) (land : K × K → Bool) (step_m : K) :
    ℕ → ℕ → Option ℕ
  | _, 0 => none
  | k, Nat.succ fuel =>
    if land (rayProbe point dir step_m k) then some k
    else castLoop point dir land step_m (k + 1) fuel

/-- The shared ray caster: march outward from point along dir in steps
of step_m, testing the land mask at distances step_m * k for
k = 1 .. ceil(max_distance_m / step_m) (the index range enumerated by
numpy.arange(step_m, max_distance_m + step_m, step_m)); return the
first hit's cumulative distance in km, or max_distance_m / 1000 if no
probe is contained. -/
def castCore (point dir : K × K) (land : K × K → Bool)
    [FloorRing K] (max_distance_m step_m : K) : K :=
  match castLoop point dir land step_m 1 ⌈max_distance_m / step_m⌉₊ with
  | some k => ((k : K) * step_m) / 1000
  | none => max_distance_m / 1000

/-- numpy.median: sort ascending; middle element for odd length, mean
of the two middle elements for even length. -/
def median (l : List K) : K :=
  let s := l.mergeSort fun a b => a ≤ b
  if l.length % 2 = 1 then s.getD (l.length / 2) 0
  else (s.getD (l.length / 2 - 1) 0 + s.getD (l.length / 2) 0) / 2

/-- Python round(x, p) (to p decimal places), via Mathlib's round. -/
def round_to [FloorRing K] (p : ℕ) (x : K) : K :=
  ((round (x * 10 ^ p) : ℤ) : K) / 10 ^ p

/-- numpy.mean of a list: sum divided by length. -/
def listMean (l : List K) : K :=
  l.sum / (l.length : K)

/-- max(0.0, min(1.0, x)) from compute_route_exposure.py. -/
def clamp01 (x : K) : K :=
  max 0 (min 1 x)

/-- The comparator of sorted(items, key=lambda x: x[1], reverse=True):
descending by score; both sorts are stable, so using it under
List.mergeSort reproduces Python's output exactly. -/
def descBySnd (a b : String × K) : Bool :=
  decide (b.2 ≤ a.2)

/-- The top-3 selection shared by both scripts: stable-sort the
(direction, score) entries descending by score and keep the first
three names. -/
def top3Names (scored : List (String × K)) : List String :=
  ((scored.mergeSort descBySnd).take 3).map Prod.fst

end SharedCore

namespace V1

variable {K : Type} [LinearOrderedField K]

/-- SAMPLE_POINTS_PER_ROUTE in compute_route_exposure.py. -/
def SAMPLE_POINTS_PER_ROUTE : ℕ := 10

/-- MAX_FETCH_KM in compute_route_exposure.py. -/
def MAX_FETCH_KM : K := 50

/-- RAY_STEP_M in compute_route_exposure.py. -/
def RAY_STEP_M : K := 100

/-- compute_fetch_distance (V1): cast a ray from point_utm along the
direction vector of wind_from_degrees (dx = sin, dy = cos of the
bearing, threaded as dirVec), stepping by RAY_STEP_M, up to
max_distance_m (a parameter of the source function, defaulting to
MAX_FETCH_KM * 1000 at its call site). -/
def compute_fetch_distance [FloorRing K] (dirVec : K → K × K)
    (point_utm : K × K) (wind_from_degrees : K) (land : K × K → Bool)
    (max_distance_m : K) : K :=
  castCore point_utm (dirVec wind_from_degrees) land max_distance_m RAY_STEP_M

/-- sample_route_points (V1): project both endpoints (proj models the
WGS84-to-UTM transformer) and sample n_points parametric points. -/
def sample_route_points (proj : GeoPoint K → K × K)
    (origin dest : GeoPoint K) (n_points : ℕ) : List (K × K) :=
  samplePlanar (proj origin) (proj dest) n_points

/-- The per-route record built by compute_route_exposure (V1).
Numeric fields are stored rounded exactly as in the source. -/
structure Sig (K : Type) where
  route_id : String
  origin_port : String
  destination_port : String
  exposure_by_dir : List (String × K)
  fetch_km_by_dir : List (String × K)
  avg_exposure : K
  top_exposure_dirs : List String
deriving Repr

/-- The V1 normalization model: clamp01(logfn(d + 1) / logfn(MAX_FETCH_KM + 1)),
with math.log threaded as logfn. -/
def exposure_model (logfn : K → K) (d : K) : K :=
  clamp01 (logfn (d + 1) / logfn (MAX_FETCH_KM + 1))

/-- The body of compute_route_exposure (V1) once the two port records
have been resolved: sample the route, and for each compass direction
compute the per-point fetch distances, their median (stored rounded to
2 decimals), and the rounded log-normalized exposure score; aggregate
with the mean and the stable descending top-3. -/
def signature_core [FloorRing K] (proj : GeoPoint K → K × K)
    (dirVec : K → K × K) (logfn : K → K) (land : K × K → Bool)
    (route_id origin_slug dest_slug : String)
    (origin dest : GeoPoint K) : Sig K :=
  let sample_points := sample_route_points proj origin dest SAMPLE_POINTS_PER_ROUTE
  let perDir := (COMPASS_DIRECTIONS K).map fun nd =>
    let fetch_distances := sample_points.map fun point =>
      compute_fetch_distance dirVec point nd.2 land (MAX_FETCH_KM * 1000)
    let median_fetch := median fetch_distances
    (nd.1, round_to 3 (exposure_model logfn median_fetch), round_to 2 median_fetch)
  let exposure_by_dir := perDir.map fun x => (x.1, x.2.1)
  { route_id := route_id
    origin_port := origin_slug
    destination_port := dest_slug
    exposure_by_dir := exposure_by_dir
    fetch_km_by_dir := perDir.map fun x => (x.1, x.2.2)
    avg_exposure := round_to 3 (listMean (exposure_by_dir.map Prod.snd))
    top_exposure_dirs := top3Names exposure_by_dir }

/-- compute_route_exposure (V1): resolve the two port slugs in PORTS
(Option models the KeyError) and build the signature. -/
def compute_route_exposure [FloorRing K] (proj : GeoPoint K → K × K)
    (dirVec : K → K × K) (logfn : K → K) (land : K × K → Bool)
    (route_id origin_slug dest_slug : String) : Option (Sig K) :=
  (lookupPort origin_slug).bind fun origin =>
    (lookupPort dest_slug).bind fun dest =>
      some (signature_core proj dirVec logfn land route_id origin_slug dest_slug origin dest)

/-- The route_exposures dict of validate_results (V1): keyed by
(origin_port, destination_port), insertion order over the results list
(a later result overwrites an earlier one with the same key). -/
def route_exposures_get (results : List (Sig K)) (key : String × String) : Option K :=
  results.foldl
    (fun acc r => if (r.origin_port, r.destination_port) = key then some r.avg_exposure else acc)
    none

/-- validate_results (V1): its returned boolean is check1, namely that
the hyannis-to-nantucket average exposure strictly exceeds the
woods-hole-to-vineyard-haven one (dict .get with default 0). -/
def validate_results (results : List (Sig K)) : Bool :=
  decide ((route_exposures_get results ("woods-hole", "vineyard-haven")).getD 0
    < (route_exposures_get results ("hyannis", "nantucket")).getD 0)

/-- The tail of main (V1), lines 397-418: validate_results is called
but its return value is discarded, and the output artifact is written
unconditionally.  some r = the artifact (the results keyed by route id
plus parameters) is persisted. -/
def v1_finalize (results : List (Sig K)) : Option (List (Sig K)) :=
  let _check := validate_results results
  some results

/-- main (V1): load the land mask (none models FileNotFoundError, which
aborts before computing), compute every route's signature (none models
a KeyError on the static tables), then run v1_finalize, which persists
regardless of the validation outcome. -/
def v1_main [FloorRing K] (proj : GeoPoint K → K × K) (dirVec : K → K × K)
    (logfn : K → K) (maskLoad : Option (K × K → Bool)) :
    Option (List (Sig K)) :=
  maskLoad.bind fun land =>
    (ROUTES.mapM fun r =>
      compute_route_exposure proj dirVec logfn land r.1 r.2.1 r.2.2).bind
      v1_finalize

end V1

namespace V2

variable {K : Type} [LinearOrderedField K]

/-- SAMPLE_POINTS_PER_ROUTE in compute_route_exposure_v2.py. -/
def SAMPLE_POINTS_PER_ROUTE : ℕ := 50

/-- MAX_RAY_KM in compute_route_exposure_v2.py. -/
def MAX_RAY_KM : K := 30

/-- SHELTER_THRESHOLD_KM in compute_route_exposure_v2.py. -/
def SHELTER_THRESHOLD_KM : K := 3

/-- RAY_STEP_M in compute_route_exposure_v2.py. -/
def RAY_STEP_M : K := 50

/-- cast_ray_to_land (V2): same marching loop as V1's
compute_fetch_distance, with the V2 step size. -/
def cast_ray_to_land [FloorRing K] (dirVec : K → K × K)
    (point_utm : K × K) (wind_from_degrees : K) (land : K × K → Bool)
    (max_distance_m : K) : K :=
  castCore point_utm (dirVec wind_from_degrees) land max_distance_m RAY_STEP_M

/-- sample_route_points (V2): identical body to the V1 function. -/
def sample_route_points (proj : GeoPoint K → K × K)
    (origin dest : GeoPoint K) (n_points : ℕ) : List (K × K) :=
  samplePlanar (proj origin) (proj dest) n_points

/-- The per-route record built by compute_shelter_signature (V2); the
field mean_shelter models the source's mean shelter-ratio field.
Numeric fields are stored rounded exactly as in the source. -/
structure Sig (K : Type) where
  route_id : String
  origin_port : String
  destination_port : String
  shelter_ratio_by_dir : List (String × K)
  effective_open_fetch_km_by_dir : List (String × K)
  mean_shelter : K
  top_exposure_dirs : List String
deriving Repr

/-- The V2 per-direction reduction of the raw per-point distances ds:
the stored (rounded) shelter ratio 1 - sum(sheltered_flags)/len, where
a point is sheltered iff its distance is at most SHELTER_THRESHOLD_KM,
and the stored (rounded) median of the MAX_RAY_KM-capped distances. -/
def direction_stats [FloorRing K] (ds : List K) : K × K :=
  let sheltered_flags := ds.map fun d => decide (d ≤ SHELTER_THRESHOLD_KM)
  let ratio_raw : K :=
    1 - (sheltered_flags.map fun b => if b then (1 : K) else 0).sum
      / (sheltered_flags.length : K)
  let capped_distances := ds.map fun d => min d MAX_RAY_KM
  (round_to 3 ratio_raw, round_to 2 (median capped_distances))

/-- The body of compute_shelter_signature (V2) once the two port
records have been resolved. -/
def signature_core [FloorRing K] (proj : GeoPoint K → K × K)
    (dirVec : K → K × K) (land : K × K → Bool)
    (route_id origin_slug dest_slug : String)
    (origin dest : GeoPoint K) : Sig K :=
  let sample_points := sample_route_points proj origin dest SAMPLE_POINTS_PER_ROUTE
  let perDir := (COMPASS_DIRECTIONS K).map fun nd =>
    let intersection_distances := sample_points.map fun point =>
      cast_ray_to_land dirVec point nd.2 land (MAX_RAY_KM * 1000)
    let stats := direction_stats intersection_distances
    (nd.1, stats.1, stats.2)
  let shelter_ratio_by_dir := perDir.map fun x => (x.1, x.2.1)
  { route_id := route_id
    origin_port := origin_slug
    destination_port := dest_slug
    shelter_ratio_by_dir := shelter_ratio_by_dir
    effective_open_fetch_km_by_dir := perDir.map fun x => (x.1, x.2.2)
    mean_shelter := round_to 3 (listMean (shelter_ratio_by_dir.map Prod.snd))
    top_exposure_dirs := top3Names shelter_ratio_by_dir }

/-- compute_shelter_signature (V2): resolve the two port slugs in
PORTS (Option models the KeyError) and build the signature. -/
def compute_shelter_signature [FloorRing K] (proj : GeoPoint K → K × K)
    (dirVec : K → K × K) (land : K × K → Bool)
    (route_id origin_slug dest_slug : String) : Option (Sig K) :=
  (lookupPort origin_slug).bind fun origin =>
    (lookupPort dest_slug).bind fun dest =>
      some (signature_core proj dirVec land route_id origin_slug dest_slug origin dest)

/-- validate_route_distances (V2): every pair in EXPECTED_DISTANCES
must have its recomputed great-circle distance (distfn models
haversine_km) inside its [min, max] window. -/
def validate_route_distances (distfn : GeoPoint K → GeoPoint K → K) : Bool :=
  (EXPECTED_DISTANCES K).all fun e =>
    match lookupPort e.1.1, lookupPort e.1.2 with
    | some p1, some p2 =>
      decide (e.2.min ≤ distfn p1 p2 ∧ distfn p1 p2 ≤ e.2.max)
    | _, _ => false

/-- validate_exposure_ordering (V2): hy-nan-ssa's mean shelter ratio
must exceed wh-vh-ssa's by at least 0.2; a missing reference route is
failure. -/
def validate_exposure_ordering (results : List (Sig K)) : Bool :=
  match results.find? (fun r => r.route_id == "hy-nan-ssa"),
    results.find? (fun r => r.route_id == "wh-vh-ssa") with
  | some hy_nan, some wh_vh =>
    decide ((1 : K) / 5 ≤ hy_nan.mean_shelter - wh_vh.mean_shelter)
  | _, _ => false

/-- The observable outcome of main (V2): which fatal check fired, or
the persisted artifact (modelled by the results it contains). -/
inductive Outcome (K : Type) where
  | distFail
  | maskFail
  | missingRef
  | orderFail (results : List (Sig K))
  | written (results : List (Sig K))
deriving Repr

/-- The tail of main (V2), lines 461-488: the ordering validation
gates persistence; on failure the script exits before writing. -/
def v2_finalize (results : List (Sig K)) : Outcome K :=
  if validate_exposure_ordering results then Outcome.written results
  else Outcome.orderFail results

/-- main (V2): validate route distances first (sys.exit(1) on failure,
before the land mask is even loaded and before any ray casting), then
load the land mask (none models FileNotFoundError), compute every
route's signature, and finally gate persistence on the ordering
validation. -/
def v2_main [FloorRing K] (distfn : GeoPoint K → GeoPoint K → K)
    (proj : GeoPoint K → K × K) (dirVec : K → K × K)
    (maskLoad : Option (K × K → Bool)) : Outcome K :=
  if validate_route_distances distfn then
    match maskLoad with
    | none => Outcome.maskFail
    | some land =>
      match ROUTES.mapM (fun r =>
        compute_shelter_signature proj dirVec land r.1 r.2.1 r.2.2) with
      | none => Outcome.missingRef
      | some results => v2_finalize results
  else Outcome.distFail

end V2

section RealInstantiation

open Real

/-- The bearing-to-direction computation of both scripts over ℝ:
dx = sin(radians(deg)), dy = cos(radians(deg)), with
math.radians(deg) = deg * pi / 180. -/
noncomputable def dir_vector (deg : ℝ) : ℝ × ℝ :=
  (Real.sin (deg * π / 180), Real.cos (deg * π / 180))

/-- math.atan2 restricted to the arguments haversine_km produces. -/
noncomputable def atan2 (y x : ℝ) : ℝ :=
  if 0 < x then Real.arctan (y / x)
  else if x < 0 then
    (if 0 ≤ y then Real.arctan (y / x) + π else Real.arctan (y / x) - π)
  else
    (if 0 < y then π / 2 else if y < 0 then -(π / 2) else 0)

/-- haversine_km (V2) over ℝ, following the source formula with
R = 6371 km. -/
noncomputable def haversine_km (p1 p2 : GeoPoint ℝ) : ℝ :=
  let lat1_rad := p1.lat * π / 180
  let lat2_rad := p2.lat * π / 180
  let delta_lat := (p2.lat - p1.lat) * π / 180
  let delta_lon := (p2.lon - p1.lon) * π / 180
  let a := Real.sin (delta_lat / 2) ^ 2 +
    Real.cos lat1_rad * Real.cos lat2_rad * Real.sin (delta_lon / 2) ^ 2
  6371 * (2 * atan2 (Real.sqrt a) (Real.sqrt (1 - a)))

/-- The V1 log-fetch score model at its real instantiation
(math.log = Real.log): clamp01(ln(d + 1) / ln(MAX_FETCH_KM + 1)). -/
noncomputable def logFetchScore (d : ℝ) : ℝ :=
  V1.exposure_model Real.log d

/-- main (V1) at the real instantiation: math.log is Real.log and the
bearing trigonometry is dir_vector; the projection stays a parameter
(an external pyproj collaborator). -/
noncomputable def v1_main_real (proj : GeoPoint ℝ → ℝ × ℝ)
    (maskLoad : Option (ℝ × ℝ → Bool)) : Option (List (V1.Sig ℝ)) :=
  V1.v1_main proj dir_vector Real.log maskLoad

/-- main (V2) at the real instantiation: the distance recomputation is
haversine_km and the bearing trigonometry is dir_vector. -/
noncomputable def v2_main_real (proj : GeoPoint ℝ → ℝ × ℝ)
    (maskLoad : Option (ℝ × ℝ → Bool)) : V2.Outcome ℝ :=
  V2.v2_main haversine_km proj dir_vector maskLoad

end RealInstantiation


section BodyExtractors

variable {K : Type}

/-- The origin/destination-independent body of a V1 signature: the two
per-direction maps, the aggregate and the top-3 list. -/
def V1.sig_body (s : V1.Sig K) :
    List (String × K) × List (String × K) × K × List String :=
  (s.exposure_by_dir, s.fetch_km_by_dir, s.avg_exposure, s.top_exposure_dirs)

/-- The origin/destination-independent body of a V2 signature. -/
def V2.sig_body (s : V2.Sig K) :
    List (String × K) × List (String × K) × K × List String :=
  (s.shelter_ratio_by_dir, s.effective_open_fetch_km_by_dir, s.mean_shelter,
    s.top_exposure_dirs)

end BodyExtractors

section ExampleData

/-- A synthetic V1 result set on which validate_results returns failure
(hyannis-nantucket average 0, woods-hole-vineyard-haven average 1). -/
def exResultsV1 : List (V1.Sig ℚ) :=
  [{ route_id := "hy-nan-ssa", origin_port := "hyannis",
     destination_port := "nantucket", exposure_by_dir := [],
     fetch_km_by_dir := [], avg_exposure := 0, top_exposure_dirs := [] },
   { route_id := "wh-vh-ssa", origin_port := "woods-hole",
     destination_port := "vineyard-haven", exposure_by_dir := [],
     fetch_km_by_dir := [], avg_exposure := 1, top_exposure_dirs := [] }]

/-- A synthetic V2 result set on which validate_exposure_ordering
returns failure (both reference mean ratios 0, difference below the
0.2 margin). -/
def exResultsV2 : List (V2.Sig ℚ) :=
  [{ route_id := "hy-nan-ssa", origin_port := "hyannis",
     destination_port := "nantucket", shelter_ratio_by_dir := [],
     effective_open_fetch_km_by_dir := [], mean_shelter := 0,
     top_exposure_dirs := [] },
   { route_id := "wh-vh-ssa", origin_port := "woods-hole",
     destination_port := "vineyard-haven", shelter_ratio_by_dir := [],
     effective_open_fetch_km_by_dir := [], mean_shelter := 0,
     top_exposure_dirs := [] }]

/-- A synthetic projection for the C9 counterexample: latitude and
longitude read directly as planar coordinates. -/
def cexProj : GeoPoint ℚ → ℚ × ℚ := fun g => (g.lat, g.lon)

/-- Synthetic origin port for the C9 counterexample. -/
def cexOrigin : GeoPoint ℚ := ⟨0, 0⟩

/-- Synthetic destination port for the C9 counterexample (sample
points then sit at x = 2i+1 for i = 0..49, y = 0). -/
def cexDest : GeoPoint ℚ := ⟨100, 0⟩

/-- A synthetic bearing-to-direction function for the C9
counterexample: due-east-style unit vector for bearing 0, a long
vector for the 15 other bearings. -/
def cexDirVec : ℚ → ℚ × ℚ := fun deg => if deg = 0 then (1, 0) else (1000000, 0)

/-- A synthetic land mask for the C9 counterexample: a near band
hit at the first step by the 49 westernmost sample points in the
bearing-0 direction, a far band hit at step 61 (3.05 km, just beyond
the 3 km shelter threshold) by the easternmost point, and a very far
band hit at the first step under the long direction vectors. -/
def cexLand : ℚ × ℚ → Bool := fun q =>
  decide ((51 ≤ q.1 ∧ q.1 ≤ 147) ∨ (3101 ≤ q.1 ∧ q.1 ≤ 3200) ∨ 10000000 ≤ q.1)

/-- The computed V2 signature of the C9 counterexample
configuration: direction N scores 1/50, the 15 others 0, so the exact
mean of the stored scores is 1/800 = 0.00125, which is not
representable in 3 decimals. -/
def cexSig : V2.Sig ℚ :=
  V2.signature_core cexProj cexDirVec cexLand "wh-vh-ssa" "woods-hole"
    "vineyard-haven" cexOrigin cexDest


end ExampleData

section SamplerLemmas

variable {K : Type} [LinearOrderedField K]

/-- The i-th sample point, as a standalone function. -/
def samplePoint (p1 p2 : K × K) (n i : ℕ) : K × K :=
  (p1.1 + (((i : K) + 1 / 2) / (n : K)) * (p2.1 - p1.1),
   p1.2 + (((i : K) + 1 / 2) / (n : K)) * (p2.2 - p1.2))

theorem samplePlanar_eq_map (p1 p2 : K × K) (n : ℕ) :
    samplePlanar p1 p2 n = (List.range n).map (samplePoint p1 p2 n) := by
  unfold samplePlanar samplePoint
  rfl

theorem samplePlanar_length (p1 p2 : K × K) (n : ℕ) :
    (samplePlanar p1 p2 n).length = n := by
  rw [samplePlanar_eq_map, List.length_map, List.length_range]

theorem samplePlanar_getElem (p1 p2 : K × K) (n i : ℕ)
    (h : i < (samplePlanar p1 p2 n).length) :
    (samplePlanar p1 p2 n)[i] = samplePoint p1 p2 n i := by
  simp [samplePlanar_eq_map]

theorem samplePlanar_param_pos (n i : ℕ) (hn : 1 ≤ n) :
    0 < ((i : K) + 1 / 2) / (n : K) := by
  have hn0 : (0 : K) < (n : K) := by
    exact_mod_cast Nat.lt_of_lt_of_le Nat.zero_lt_one hn
  have hi : (0 : K) ≤ (i : K) := Nat.cast_nonneg i
  positivity

theorem samplePlanar_param_lt_one (n i : ℕ) (h : i < n) :
    ((i : K) + 1 / 2) / (n : K) < 1 := by
  have hn0 : (0 : K) < (n : K) := by
    exact_mod_cast Nat.lt_of_le_of_lt (Nat.zero_le i) h
  rw [div_lt_one hn0]
  have : (i : K) + 1 ≤ (n : K) := by exact_mod_cast h
  linarith

theorem samplePoint_ne (p1 p2 : K × K) (n j : ℕ) (hj : j < n)
    (hne : p1 ≠ p2) : samplePoint p1 p2 n j ≠ p1 ∧ samplePoint p1 p2 n j ≠ p2 := by
  have hn : 1 ≤ n := Nat.lt_of_le_of_lt (Nat.zero_le j) hj
  set t : K := ((j : K) + 1 / 2) / (n : K) with ht
  have ht0 : 0 < t := samplePlanar_param_pos n j hn
  have ht1 : t < 1 := samplePlanar_param_lt_one n j hj
  have hcomp : p2.1 - p1.1 ≠ 0 ∨ p2.2 - p1.2 ≠ 0 := by
    by_contra hc
    push_neg at hc
    exact hne (Prod.ext (by linarith [hc.1]) (by linarith [hc.2]))
  constructor
  · intro h
    have h1 : p1.1 + t * (p2.1 - p1.1) = p1.1 := congrArg Prod.fst h
    have h2 : p1.2 + t * (p2.2 - p1.2) = p1.2 := congrArg Prod.snd h
    rcases hcomp with hc | hc
    · have h1' : t * (p2.1 - p1.1) = 0 := by linarith
      rcases mul_eq_zero.mp h1' with h' | h'
      · exact absurd h' (ne_of_gt ht0)
      · exact hc h'
    · have h2' : t * (p2.2 - p1.2) = 0 := by linarith
      rcases mul_eq_zero.mp h2' with h' | h'
      · exact absurd h' (ne_of_gt ht0)
      · exact hc h'
  · intro h
    have h1 : p1.1 + t * (p2.1 - p1.1) = p2.1 := congrArg Prod.fst h
    have h2 : p1.2 + t * (p2.2 - p1.2) = p2.2 := congrArg Prod.snd h
    have h1t : (1 : K) - t ≠ 0 := by intro hc; linarith
    rcases hcomp with hc | hc
    · have h1' : (1 - t) * (p2.1 - p1.1) = 0 := by linear_combination -h1
      exact hc ((mul_eq_zero.mp h1').resolve_left h1t)
    · have h2' : (1 - t) * (p2.2 - p1.2) = 0 := by linear_combination -h2
      exact hc ((mul_eq_zero.mp h2').resolve_left h1t)

theorem samplePlanar_mem_ne (p1 p2 : K × K) (n : ℕ) (hne : p1 ≠ p2)
    (pt : K × K) (hmem : pt ∈ samplePlanar p1 p2 n) :
    pt ≠ p1 ∧ pt ≠ p2 := by
  rw [samplePlanar_eq_map] at hmem
  obtain ⟨j, hj, rfl⟩ := List.mem_map.mp hmem
  exact samplePoint_ne p1 p2 n j (List.mem_range.mp hj) hne

theorem samplePlanar_reverse (p1 p2 : K × K) (n : ℕ) :
    samplePlanar p2 p1 n = (samplePlanar p1 p2 n).reverse := by
  apply List.ext_getElem
  · simp [samplePlanar_length]
  · intro i h1 h2
    have hi : i < n := by simpa [samplePlanar_length] using h1
    have hgoal : (samplePlanar p1 p2 n).reverse[i] =
        samplePoint p1 p2 n (n - 1 - i) := by
      rw [List.getElem_reverse]
      have : (samplePlanar p1 p2 n).length - 1 - i = n - 1 - i := by
        rw [samplePlanar_length]
      simp only [samplePlanar_eq_map] at this ⊢
      simp only [List.getElem_map, List.getElem_range, this]
    rw [hgoal, samplePlanar_getElem p2 p1 n i (by rw [samplePlanar_length]; exact hi)]
    have hn0 : (n : K) ≠ 0 := by
      have : 0 < n := Nat.lt_of_le_of_lt (Nat.zero_le i) hi
      exact_mod_cast Nat.pos_iff_ne_zero.mp this
    have hcast : ((n - 1 - i : ℕ) : K) = (n : K) - 1 - (i : K) := by
      have h1 : i + 1 ≤ n := hi
      rw [Nat.sub_sub, Nat.cast_sub (by omega)]
      push_cast
      ring
    unfold samplePoint
    rw [hcast]
    rw [Prod.ext_iff]
    constructor
    · show p2.1 + ((i : K) + 1 / 2) / (n : K) * (p1.1 - p2.1) =
        p1.1 + ((n : K) - 1 - (i : K) + 1 / 2) / (n : K) * (p2.1 - p1.1)
      field_simp
      ring
    · show p2.2 + ((i : K) + 1 / 2) / (n : K) * (p1.2 - p2.2) =
        p1.2 + ((n : K) - 1 - (i : K) + 1 / 2) / (n : K) * (p2.2 - p1.2)
      field_simp
      ring

end SamplerLemmas

section CastLemmas

variable {K : Type} [LinearOrderedField K]

theorem castLoop_eq_none_iff (point dir : K × K) (land : K × K → Bool)
    (step_m : K) (k fuel : ℕ) :
    castLoop point dir land step_m k fuel = none ↔
      ∀ i, k ≤ i → i < k + fuel → land (rayProbe point dir step_m i) = false := by
  induction fuel generalizing k with
  | zero =>
    constructor
    · intro _ i hki hlt
      omega
    · intro _
      rfl
  | succ fuel ih =>
    rw [castLoop]
    by_cases h : land (rayProbe point dir step_m k) = true
    · rw [if_pos h]
      constructor
      · intro hc
        exact absurd hc (by simp)
      · intro hall
        have := hall k le_rfl (by omega)
        rw [h] at this
        exact absurd this (by simp)
    · rw [if_neg h]
      rw [ih (k + 1)]
      constructor
      · intro hall i hki hlt
        rcases Nat.eq_or_lt_of_le hki with rfl | hgt
        · exact Bool.eq_false_iff.mpr h
        · exact hall i hgt (by omega)
      · intro hall i hki hlt
        exact hall i (by omega) (by omega)

theorem castLoop_eq_some_iff (point dir : K × K) (land : K × K → Bool)
    (step_m : K) (j k fuel : ℕ) :
    castLoop point dir land step_m k fuel = some j ↔
      (k ≤ j ∧ j < k + fuel ∧ land (rayProbe point dir step_m j) = true ∧
        ∀ i, k ≤ i → i < j → land (rayProbe point dir step_m i) = false) := by
  induction fuel generalizing k with
  | zero =>
    constructor
    · intro hc
      exact absurd hc (by simp [castLoop])
    · intro ⟨h1, h2, _⟩
      omega
  | succ fuel ih =>
    rw [castLoop]
    by_cases h : land (rayProbe point dir step_m k) = true
    · rw [if_pos h]
      constructor
      · intro hc
        have hj : k = j := Option.some_injective _ hc
        subst hj
        exact ⟨le_rfl, by omega, h, fun i h1 h2 => (by omega : False).elim⟩
      · intro ⟨h1, _, _, hall⟩
        rcases Nat.eq_or_lt_of_le h1 with rfl | hgt
        · rfl
        · have := hall k le_rfl hgt
          rw [h] at this
          exact absurd this (by simp)
    · rw [if_neg h]
      rw [ih (k + 1)]
      constructor
      · intro ⟨h1, h2, h3, hall⟩
        refine ⟨by omega, by omega, h3, fun i hki hlt => ?_⟩
        rcases Nat.eq_or_lt_of_le hki with rfl | hgt
        · exact Bool.eq_false_iff.mpr h
        · exact hall i hgt hlt
      · intro ⟨h1, h2, h3, hall⟩
        have hjk : j ≠ k := by
          intro hc
          subst hc
          rw [h3] at h
          exact h rfl
        exact ⟨by omega, by omega, h3, fun i hki hlt => hall i (by omega) hlt⟩

theorem castCore_fuel [FloorRing K] (m : ℕ) (step_m : K)
    (hstep : 0 < step_m) :
    ⌈((m : K) * step_m) / step_m⌉₊ = m := by
  rw [mul_div_assoc, div_self (ne_of_gt hstep), mul_one, Nat.ceil_natCast]

/-- If no probe index in 1..ceil(max/step) is contained, castCore
returns exactly max/1000. -/
theorem castCore_eq_max (point dir : K × K) (land : K × K → Bool)
    [FloorRing K] (max_distance_m step_m : K)
    (hnone : ∀ i, 1 ≤ i → i ≤ ⌈max_distance_m / step_m⌉₊ →
      land (rayProbe point dir step_m i) = false) :
    castCore point dir land max_distance_m step_m = max_distance_m / 1000 := by
  unfold castCore
  rw [(castLoop_eq_none_iff point dir land step_m 1 ⌈max_distance_m / step_m⌉₊).mpr
    (fun i h1 h2 => hnone i h1 (by omega))]

/-- If j is the first contained probe index and it is within fuel
range, castCore returns its cumulative distance in km. -/
theorem castCore_eq_first_hit (point dir : K × K) (land : K × K → Bool)
    [FloorRing K] (max_distance_m step_m : K) (j : ℕ)
    (h1 : 1 ≤ j) (h2 : j ≤ ⌈max_distance_m / step_m⌉₊)
    (hhit : land (rayProbe point dir step_m j) = true)
    (hbefore : ∀ i, 1 ≤ i → i < j → land (rayProbe point dir step_m i) = false) :
    castCore point dir land max_distance_m step_m = ((j : K) * step_m) / 1000 := by
  unfold castCore
  rw [(castLoop_eq_some_iff point dir land step_m j 1 ⌈max_distance_m / step_m⌉₊).mpr
    ⟨h1, by omega, hhit, hbefore⟩]

end CastLemmas

section MedianLemmas

variable {K : Type} [LinearOrderedField K]

theorem ascLe_trans (a b c : K) (h1 : decide (a ≤ b) = true)
    (h2 : decide (b ≤ c) = true) : decide (a ≤ c) = true := by
  simp only [decide_eq_true_eq] at *
  exact le_trans h1 h2

theorem ascLe_total (a b : K) :
    (decide (a ≤ b) || decide (b ≤ a)) = true := by
  rcases le_total a b with h | h <;> simp [h]

theorem mergeSort_asc_sorted (l : List K) :
    (l.mergeSort fun a b => a ≤ b).Sorted (· ≤ ·) := by
  have := @List.sorted_mergeSort K (fun a b : K => decide (a ≤ b))
    ascLe_trans ascLe_total l
  exact List.Pairwise.imp (fun h => by simpa using h) this

theorem mergeSort_asc_eq_of_perm (l l' : List K) (h : l.Perm l') :
    (l.mergeSort fun a b => a ≤ b) = (l'.mergeSort fun a b => a ≤ b) := by
  apply List.eq_of_perm_of_sorted _ (mergeSort_asc_sorted l) (mergeSort_asc_sorted l')
  exact ((List.mergeSort_perm l _).trans h).trans (List.mergeSort_perm l' _).symm

/-- numpy.median is invariant under permutation of its input. -/
theorem median_perm (l l' : List K) (h : l.Perm l') :
    median l = median l' := by
  unfold median
  rw [mergeSort_asc_eq_of_perm l l' h, h.length_eq]

/-- Evaluating numpy.median on an already-sorted list. -/
theorem median_of_sorted (l : List K) (h : l.Sorted (· ≤ ·)) :
    median l =
      if l.length % 2 = 1 then l.getD (l.length / 2) 0
      else (l.getD (l.length / 2 - 1) 0 + l.getD (l.length / 2) 0) / 2 := by
  unfold median
  rw [List.mergeSort_of_sorted (List.Pairwise.imp (fun h => by simpa using h) h)]

end MedianLemmas

section RoundLemmas

variable {K : Type} [LinearOrderedField K] [FloorRing K]

theorem round_mono {x y : K} (h : x ≤ y) : round x ≤ round y := by
  rw [round_eq, round_eq]
  exact Int.floor_le_floor (by linarith)

theorem round_to_zero (p : ℕ) : round_to p (0 : K) = 0 := by
  simp [round_to]

theorem round_to_one (p : ℕ) : round_to p (1 : K) = 1 := by
  unfold round_to
  rw [one_mul]
  have h10 : ((10 : K) ^ p) = (((10 : ℤ) ^ p : ℤ) : K) := by push_cast; ring
  rw [h10, round_intCast]
  rw [div_self]
  exact_mod_cast pow_ne_zero p (by norm_num : (10 : ℤ) ≠ 0)

theorem round_to_mono (p : ℕ) {x y : K} (h : x ≤ y) :
    round_to p x ≤ round_to p y := by
  unfold round_to
  have hp : (0 : K) < 10 ^ p := by positivity
  rw [div_le_div_iff_of_pos_right hp]
  have hr : round (x * 10 ^ p) ≤ round (y * 10 ^ p) :=
    round_mono (mul_le_mul_of_nonneg_right h (le_of_lt hp))
  exact_mod_cast hr

theorem round_to_mem01 (p : ℕ) {x : K} (h0 : 0 ≤ x) (h1 : x ≤ 1) :
    0 ≤ round_to p x ∧ round_to p x ≤ 1 := by
  constructor
  · have := round_to_mono p h0
    rwa [round_to_zero p] at this
  · have := round_to_mono p h1
    rwa [round_to_one p] at this

/-- If x * 10^p is an integer, rounding to p decimals leaves x fixed. -/
theorem round_to_fix (p : ℕ) (x : K) (m : ℤ) (h : x * 10 ^ p = (m : K)) :
    round_to p x = x := by
  unfold round_to
  rw [h, round_intCast]
  have hp : ((10 : K) ^ p) ≠ 0 := by positivity
  field_simp
  linarith [h]

end RoundLemmas

section CountLemmas

variable {K : Type} [LinearOrderedField K] {α : Type}

/-- Python's sum over a list of booleans counts the true entries. -/
theorem flags_sum_eq_countP (l : List α) (p : α → Bool) :
    (((l.map p).map fun b => if b then (1 : K) else 0)).sum = (l.countP p : K) := by
  induction l with
  | nil => simp
  | cons a l ih =>
    simp only [List.map_map] at ih
    by_cases h : p a = true
    · simp only [List.map_cons, List.map_map, List.sum_cons, h, if_true,
        List.countP_cons, ih]
      push_cast
      ring
    · simp only [List.map_cons, List.map_map, List.sum_cons, h, if_false,
        List.countP_cons, ih]
      simp [h]

end CountLemmas

namespace V2

variable {K : Type} [LinearOrderedField K] [FloorRing K]

theorem direction_stats_fst (ds : List K) :
    (direction_stats ds).1 =
      round_to 3 (1 - ((ds.countP fun d => decide (d ≤ SHELTER_THRESHOLD_KM)) : K)
        / (ds.length : K)) := by
  unfold direction_stats
  simp only [List.length_map]
  rw [flags_sum_eq_countP]

theorem direction_stats_snd (ds : List K) :
    (direction_stats ds).2 =
      round_to 2 (median (ds.map fun d => min d MAX_RAY_KM)) := by
  rfl

/-- If every raw distance is at most the shelter threshold, the stored
shelter ratio is 0. -/
theorem direction_stats_all_sheltered (ds : List K) (hne : ds ≠ [])
    (h : ∀ d ∈ ds, d ≤ SHELTER_THRESHOLD_KM) :
    (direction_stats ds).1 = 0 := by
  rw [direction_stats_fst]
  have hc : ds.countP (fun d => decide (d ≤ SHELTER_THRESHOLD_KM)) = ds.length := by
    apply List.countP_eq_length.mpr
    intro d hd
    exact decide_eq_true (h d hd)
  rw [hc]
  have hlen : (ds.length : K) ≠ 0 := by
    have : 0 < ds.length := List.length_pos.mpr hne
    exact_mod_cast Nat.pos_iff_ne_zero.mp this
  rw [div_self hlen, sub_self, round_to_zero]

/-- If no raw distance is at most the shelter threshold, the stored
shelter ratio is 1. -/
theorem direction_stats_none_sheltered (ds : List K)
    (h : ∀ d ∈ ds, ¬ d ≤ SHELTER_THRESHOLD_KM) :
    (direction_stats ds).1 = 1 := by
  rw [direction_stats_fst]
  have hc : ds.countP (fun d => decide (d ≤ SHELTER_THRESHOLD_KM)) = 0 := by
    apply List.countP_eq_zero.mpr
    intro d hd
    simpa using h d hd
  rw [hc]
  norm_num [round_to_one]

/-- At the script's sample count of 50 points, the stored (rounded)
shelter ratio is exactly 1 - sheltered_count / sample_count: the
rounding is the identity on multiples of 1/50. -/
theorem direction_stats_exact_at_50 (ds : List K) (hlen : ds.length = 50) :
    (direction_stats ds).1 =
      1 - ((ds.countP fun d => decide (d ≤ SHELTER_THRESHOLD_KM)) : K) / 50 := by
  rw [direction_stats_fst, hlen]
  set k : ℕ := ds.countP fun d => decide (d ≤ SHELTER_THRESHOLD_KM) with hk
  apply round_to_fix 3 _ (1000 - 20 * (k : ℤ))
  push_cast
  field_simp
  ring

/-- The stored shelter ratio always lies in [0, 1]. -/
theorem direction_stats_mem01 (ds : List K) (hne : ds ≠ []) :
    0 ≤ (direction_stats ds).1 ∧ (direction_stats ds).1 ≤ 1 := by
  rw [direction_stats_fst]
  have hlen : (0 : K) < (ds.length : K) := by
    have : 0 < ds.length := List.length_pos.mpr hne
    exact_mod_cast this
  have hcle : ((ds.countP fun d => decide (d ≤ SHELTER_THRESHOLD_KM)) : K) ≤ (ds.length : K) := by
    exact_mod_cast List.countP_le_length _
  have hc0 : (0 : K) ≤ ((ds.countP fun d => decide (d ≤ SHELTER_THRESHOLD_KM)) : K) := by
    exact_mod_cast Nat.zero_le _
  have h0 : 0 ≤ 1 - ((ds.countP fun d => decide (d ≤ SHELTER_THRESHOLD_KM)) : K) / (ds.length : K) := by
    have : ((ds.countP fun d => decide (d ≤ SHELTER_THRESHOLD_KM)) : K) / (ds.length : K) ≤ 1 := by
      rw [div_le_one hlen]
      exact hcle
    linarith
  have h1 : 1 - ((ds.countP fun d => decide (d ≤ SHELTER_THRESHOLD_KM)) : K) / (ds.length : K) ≤ 1 := by
    have : 0 ≤ ((ds.countP fun d => decide (d ≤ SHELTER_THRESHOLD_KM)) : K) / (ds.length : K) :=
      div_nonneg hc0 (le_of_lt hlen)
    linarith
  exact round_to_mem01 3 h0 h1

end V2

section TopLemmas

variable {K : Type} [LinearOrderedField K] {β : Type}

theorem descBySnd_trans (a b c : String × K) (h1 : descBySnd a b = true)
    (h2 : descBySnd b c = true) : descBySnd a c = true := by
  simp only [descBySnd, decide_eq_true_eq] at *
  exact le_trans h2 h1

theorem descBySnd_total (a b : String × K) :
    (descBySnd a b || descBySnd b a) = true := by
  simp only [descBySnd]
  rcases le_total a.2 b.2 with h | h <;> simp [h]

theorem sortDesc_perm (l : List (String × K)) : (l.mergeSort descBySnd).Perm l :=
  List.mergeSort_perm l _

theorem sortDesc_sorted (l : List (String × K)) :
    (l.mergeSort descBySnd).Pairwise (fun a b => b.2 ≤ a.2) := by
  have := @List.sorted_mergeSort (String × K) descBySnd descBySnd_trans descBySnd_total l
  exact List.Pairwise.imp (fun h => by simpa [descBySnd] using h) this

theorem sortDesc_fst_nodup (l : List (String × K))
    (h : (l.map Prod.fst).Nodup) : ((l.mergeSort descBySnd).map Prod.fst).Nodup :=
  (((sortDesc_perm l).map Prod.fst).nodup_iff).mpr h

theorem sortDesc_nodup (l : List (String × K))
    (h : (l.map Prod.fst).Nodup) : (l.mergeSort descBySnd).Nodup :=
  (sortDesc_fst_nodup l h).of_map

theorem top3Names_length (l : List (String × K)) (h : 3 ≤ l.length) :
    (top3Names l).length = 3 := by
  unfold top3Names
  rw [List.length_map, List.length_take, List.length_mergeSort]
  omega

theorem top3Names_subset (l : List (String × K)) :
    ∀ nm ∈ top3Names l, nm ∈ l.map Prod.fst := by
  intro nm hnm
  unfold top3Names at hnm
  obtain ⟨e, he, rfl⟩ := List.mem_map.mp hnm
  exact List.mem_map_of_mem _ ((sortDesc_perm l).mem_iff.mp (List.mem_of_mem_take he))

theorem top3Names_nodup (l : List (String × K))
    (h : (l.map Prod.fst).Nodup) : (top3Names l).Nodup := by
  unfold top3Names
  have hsub : List.Sublist (((l.mergeSort descBySnd).take 3).map Prod.fst)
      ((l.mergeSort descBySnd).map Prod.fst) :=
    List.Sublist.map Prod.fst (List.take_sublist 3 _)
  exact (sortDesc_fst_nodup l h).sublist hsub

theorem entry_eq_of_fst_eq (s : List (String × K)) (h : (s.map Prod.fst).Nodup)
    (e f : String × K) (he : e ∈ s) (hf : f ∈ s) (hfst : e.1 = f.1) : e = f :=
  List.inj_on_of_nodup_map h he hf hfst

theorem mem_take_of_fst_mem (s : List (String × K)) (h : (s.map Prod.fst).Nodup)
    (e : String × K) (he : e ∈ s) (n : ℕ)
    (hname : e.1 ∈ (s.take n).map Prod.fst) : e ∈ s.take n := by
  obtain ⟨f, hf, hfst⟩ := List.mem_map.mp hname
  have : e = f :=
    entry_eq_of_fst_eq s h e f he (List.mem_of_mem_take hf) hfst.symm
  rw [this]
  exact hf

/-- Every name in the top-3 dominates every name outside it. -/
theorem top3Names_dominates (l : List (String × K))
    (hnd : (l.map Prod.fst).Nodup) :
    ∀ e ∈ l, ∀ f ∈ l, e.1 ∈ top3Names l → f.1 ∉ top3Names l → f.2 ≤ e.2 := by
  intro e hel f hfl hein hfout
  set s := l.mergeSort descBySnd with hs
  have hsnd : (s.map Prod.fst).Nodup := sortDesc_fst_nodup l hnd
  have hes : e ∈ s := (sortDesc_perm l).mem_iff.mpr hel
  have hfs : f ∈ s := (sortDesc_perm l).mem_iff.mpr hfl
  have hetake : e ∈ s.take 3 := mem_take_of_fst_mem s hsnd e hes 3 hein
  have hsplit : s.take 3 ++ s.drop 3 = s := List.take_append_drop 3 s
  have hfsplit : f ∈ s.take 3 ++ s.drop 3 := by rw [hsplit]; exact hfs
  have hfdrop : f ∈ s.drop 3 := by
    rcases List.mem_append.mp hfsplit with hft | hfd
    · exact absurd (List.mem_map_of_mem Prod.fst hft) hfout
    · exact hfd
  have hpw : (s.take 3 ++ s.drop 3).Pairwise (fun a b => b.2 ≤ a.2) := by
    rw [hsplit]
    exact sortDesc_sorted l
  exact (List.pairwise_append.mp hpw).2.2 e hetake f hfdrop

theorem pair_sublist_take (s : List β) : s.Nodup → ∀ (a b : β),
    List.Sublist [a, b] s → ∀ (n : ℕ), b ∈ s.take n → a ∈ s.take n := by
  induction s with
  | nil =>
    intro _ a b hab n hb
    exact absurd (List.sublist_nil.mp hab) (by simp)
  | cons x s ih =>
    intro hnd a b hab n hb
    cases n with
    | zero => simp at hb
    | succ m =>
      rw [List.take_succ_cons] at hb ⊢
      cases hab with
      | cons₂ _ _ => exact List.mem_cons_self x _
      | cons _ h' =>
        rcases List.mem_cons.mp hb with rfl | hbm
        · exact absurd (h'.subset (by simp)) (List.nodup_cons.mp hnd).1
        · exact List.mem_cons_of_mem x
            (ih (List.nodup_cons.mp hnd).2 a b h' m hbm)

/-- Stability of the top-3 selection: if an earlier entry ties with a
later entry that made the top-3, the earlier entry is in the top-3 as
well. -/
theorem top3Names_stable (l : List (String × K))
    (hnd : (l.map Prod.fst).Nodup) (i j : ℕ) (hi : i < l.length)
    (hj : j < l.length) (hij : i < j) (heq : (l[i]).2 = (l[j]).2)
    (hjin : (l[j]).1 ∈ top3Names l) : (l[i]).1 ∈ top3Names l := by
  set s := l.mergeSort descBySnd with hs
  have hsnd : (s.map Prod.fst).Nodup := sortDesc_fst_nodup l hnd
  have hnds : s.Nodup := hsnd.of_map
  have hpair : List.Sublist [l[i], l[j]] l := by
    have hdropi : List.Sublist (l.drop i) l := List.drop_sublist i l
    have hcons : l.drop i = (l[i]) :: l.drop (i + 1) :=
      List.drop_eq_getElem_cons hi
    have hjmem : (l[j]) ∈ l.drop (i + 1) := by
      have hk : j - (i + 1) < (l.drop (i + 1)).length := by
        rw [List.length_drop]
        omega
      have : (l.drop (i + 1))[j - (i + 1)] = l[j] := by
        rw [List.getElem_drop]
        congr 1
        omega
      rw [← this]
      exact List.getElem_mem hk
    have hsub2 : List.Sublist [l[i], l[j]]
        ((l[i]) :: l.drop (i + 1)) :=
      List.Sublist.cons₂ _ (List.singleton_sublist.mpr hjmem)
    have hsub3 : List.Sublist [l[i], l[j]] (l.drop i) := by
      rw [hcons]
      exact hsub2
    exact hsub3.trans hdropi
  have hdesc : descBySnd (l[i]) (l[j]) = true := by
    simp [descBySnd, heq]
  have hpairs : List.Sublist [l[i], l[j]] s :=
    List.pair_sublist_mergeSort descBySnd_trans descBySnd_total hdesc hpair
  have hjmem : (l[j]) ∈ s := (sortDesc_perm l).mem_iff.mpr (List.getElem_mem hj)
  have hjtake : (l[j]) ∈ s.take 3 :=
    mem_take_of_fst_mem s hsnd _ hjmem 3 hjin
  have hitake : (l[i]) ∈ s.take 3 :=
    pair_sublist_take s hnds _ _ hpairs 3 hjtake
  exact List.mem_map_of_mem Prod.fst hitake

end TopLemmas

section CompassLemmas

variable {K : Type} [LinearOrderedField K] {α : Type}

theorem compass_map_fst (g : String × K → α) :
    ((COMPASS_DIRECTIONS K).map (fun nd => (nd.1, g nd))).map Prod.fst =
      compassNames := by
  rw [List.map_map]
  rfl

theorem compass_length : (COMPASS_DIRECTIONS K).length = 16 := by
  rfl

theorem compassNames_nodup : compassNames.Nodup := by
  decide

theorem clamp01_mem01 (x : K) : 0 ≤ clamp01 x ∧ clamp01 x ≤ 1 := by
  unfold clamp01
  constructor
  · exact le_max_left 0 _
  · exact max_le (by norm_num) (min_le_left 1 x)

end CompassLemmas

namespace V2

variable {K : Type} [LinearOrderedField K] [FloorRing K]

theorem sigV2_scores (proj : GeoPoint K → K × K) (dirVec : K → K × K)
    (land : K × K → Bool) (rid os ds : String) (origin dest : GeoPoint K) :
    (signature_core proj dirVec land rid os ds origin dest).shelter_ratio_by_dir =
      (COMPASS_DIRECTIONS K).map fun nd =>
        (nd.1, (direction_stats ((sample_route_points proj origin dest
          SAMPLE_POINTS_PER_ROUTE).map fun point =>
            cast_ray_to_land dirVec point nd.2 land (MAX_RAY_KM * 1000))).1) := by
  dsimp only [signature_core]
  rw [List.map_map]
  rfl

theorem sigV2_fetch (proj : GeoPoint K → K × K) (dirVec : K → K × K)
    (land : K × K → Bool) (rid os ds : String) (origin dest : GeoPoint K) :
    (signature_core proj dirVec land rid os ds origin dest).effective_open_fetch_km_by_dir =
      (COMPASS_DIRECTIONS K).map fun nd =>
        (nd.1, (direction_stats ((sample_route_points proj origin dest
          SAMPLE_POINTS_PER_ROUTE).map fun point =>
            cast_ray_to_land dirVec point nd.2 land (MAX_RAY_KM * 1000))).2) := by
  dsimp only [signature_core]
  rw [List.map_map]
  rfl

theorem sigV2_mean (proj : GeoPoint K → K × K) (dirVec : K → K × K)
    (land : K × K → Bool) (rid os ds : String) (origin dest : GeoPoint K) :
    (signature_core proj dirVec land rid os ds origin dest).mean_shelter =
      round_to 3 (listMean
        ((signature_core proj dirVec land rid os ds origin dest).shelter_ratio_by_dir.map
          Prod.snd)) := by
  rfl

theorem sigV2_top (proj : GeoPoint K → K × K) (dirVec : K → K × K)
    (land : K × K → Bool) (rid os ds : String) (origin dest : GeoPoint K) :
    (signature_core proj dirVec land rid os ds origin dest).top_exposure_dirs =
      top3Names
        (signature_core proj dirVec land rid os ds origin dest).shelter_ratio_by_dir := by
  rfl

theorem sigV2_keys (proj : GeoPoint K → K × K) (dirVec : K → K × K)
    (land : K × K → Bool) (rid os ds : String) (origin dest : GeoPoint K) :
    (signature_core proj dirVec land rid os ds origin dest).shelter_ratio_by_dir.map
      Prod.fst = compassNames := by
  rw [sigV2_scores]
  exact compass_map_fst _

theorem sigV2_bounds (proj : GeoPoint K → K × K) (dirVec : K → K × K)
    (land : K × K → Bool) (rid os ds : String) (origin dest : GeoPoint K) :
    ∀ e ∈ (signature_core proj dirVec land rid os ds origin dest).shelter_ratio_by_dir,
      0 ≤ e.2 ∧ e.2 ≤ 1 := by
  rw [sigV2_scores]
  intro e he
  obtain ⟨nd, _, rfl⟩ := List.mem_map.mp he
  apply direction_stats_mem01
  intro hc
  have := congrArg List.length hc
  rw [List.length_map, sample_route_points, samplePlanar_length] at this
  exact absurd this (by norm_num [SAMPLE_POINTS_PER_ROUTE])

theorem direction_stats_reverse (ds : List K) :
    direction_stats ds.reverse = direction_stats ds := by
  dsimp only [direction_stats]
  simp only [List.map_reverse, List.sum_reverse, List.length_reverse]
  rw [median_perm _ _ (List.reverse_perm _)]

theorem sigV2_swap (proj : GeoPoint K → K × K) (dirVec : K → K × K)
    (land : K × K → Bool) (rid rid' os ds os' ds' : String)
    (origin dest : GeoPoint K) :
    (signature_core proj dirVec land rid' os' ds' dest origin).shelter_ratio_by_dir =
        (signature_core proj dirVec land rid os ds origin dest).shelter_ratio_by_dir ∧
      (signature_core proj dirVec land rid' os' ds' dest origin).effective_open_fetch_km_by_dir =
        (signature_core proj dirVec land rid os ds origin dest).effective_open_fetch_km_by_dir ∧
      (signature_core proj dirVec land rid' os' ds' dest origin).mean_shelter =
        (signature_core proj dirVec land rid os ds origin dest).mean_shelter ∧
      (signature_core proj dirVec land rid' os' ds' dest origin).top_exposure_dirs =
        (signature_core proj dirVec land rid os ds origin dest).top_exposure_dirs := by
  have hpoints : sample_route_points proj dest origin SAMPLE_POINTS_PER_ROUTE =
      (sample_route_points proj origin dest SAMPLE_POINTS_PER_ROUTE).reverse :=
    samplePlanar_reverse _ _ _
  have hstats : ∀ nd : String × K,
      (direction_stats ((sample_route_points proj dest origin
        SAMPLE_POINTS_PER_ROUTE).map fun point =>
          cast_ray_to_land dirVec point nd.2 land (MAX_RAY_KM * 1000))) =
      (direction_stats ((sample_route_points proj origin dest
        SAMPLE_POINTS_PER_ROUTE).map fun point =>
          cast_ray_to_land dirVec point nd.2 land (MAX_RAY_KM * 1000))) := by
    intro nd
    rw [hpoints, List.map_reverse, direction_stats_reverse]
  have hscores :
      (signature_core proj dirVec land rid' os' ds' dest origin).shelter_ratio_by_dir =
      (signature_core proj dirVec land rid os ds origin dest).shelter_ratio_by_dir := by
    rw [sigV2_scores, sigV2_scores]
    exact List.map_congr_left fun nd _ => by rw [hstats nd]
  have hfetch :
      (signature_core proj dirVec land rid' os' ds' dest origin).effective_open_fetch_km_by_dir =
      (signature_core proj dirVec land rid os ds origin dest).effective_open_fetch_km_by_dir := by
    rw [sigV2_fetch, sigV2_fetch]
    exact List.map_congr_left fun nd _ => by rw [hstats nd]
  refine ⟨hscores, hfetch, ?_, ?_⟩
  · rw [sigV2_mean, sigV2_mean, hscores]
  · rw [sigV2_top, sigV2_top, hscores]

end V2

namespace V1

variable {K : Type} [LinearOrderedField K] [FloorRing K]

theorem sigV1_scores (proj : GeoPoint K → K × K) (dirVec : K → K × K)
    (logfn : K → K) (land : K × K → Bool) (rid os ds : String)
    (origin dest : GeoPoint K) :
    (signature_core proj dirVec logfn land rid os ds origin dest).exposure_by_dir =
      (COMPASS_DIRECTIONS K).map fun nd =>
        (nd.1, round_to 3 (exposure_model logfn (median
          ((sample_route_points proj origin dest SAMPLE_POINTS_PER_ROUTE).map fun point =>
            compute_fetch_distance dirVec point nd.2 land (MAX_FETCH_KM * 1000))))) := by
  dsimp only [signature_core]
  rw [List.map_map]
  rfl

theorem sigV1_fetch (proj : GeoPoint K → K × K) (dirVec : K → K × K)
    (logfn : K → K) (land : K × K → Bool) (rid os ds : String)
    (origin dest : GeoPoint K) :
    (signature_core proj dirVec logfn land rid os ds origin dest).fetch_km_by_dir =
      (COMPASS_DIRECTIONS K).map fun nd =>
        (nd.1, round_to 2 (median
          ((sample_route_points proj origin dest SAMPLE_POINTS_PER_ROUTE).map fun point =>
            compute_fetch_distance dirVec point nd.2 land (MAX_FETCH_KM * 1000)))) := by
  dsimp only [signature_core]
  rw [List.map_map]
  rfl

theorem sigV1_mean (proj : GeoPoint K → K × K) (dirVec : K → K × K)
    (logfn : K → K) (land : K × K → Bool) (rid os ds : String)
    (origin dest : GeoPoint K) :
    (signature_core proj dirVec logfn land rid os ds origin dest).avg_exposure =
      round_to 3 (listMean
        ((signature_core proj dirVec logfn land rid os ds origin dest).exposure_by_dir.map
          Prod.snd)) := by
  rfl

theorem sigV1_top (proj : GeoPoint K → K × K) (dirVec : K → K × K)
    (logfn : K → K) (land : K × K → Bool) (rid os ds : String)
    (origin dest : GeoPoint K) :
    (signature_core proj dirVec logfn land rid os ds origin dest).top_exposure_dirs =
      top3Names
        (signature_core proj dirVec logfn land rid os ds origin dest).exposure_by_dir := by
  rfl

theorem sigV1_keys (proj : GeoPoint K → K × K) (dirVec : K → K × K)
    (logfn : K → K) (land : K × K → Bool) (rid os ds : String)
    (origin dest : GeoPoint K) :
    (signature_core proj dirVec logfn land rid os ds origin dest).exposure_by_dir.map
      Prod.fst = compassNames := by
  rw [sigV1_scores]
  exact compass_map_fst _

theorem sigV1_bounds (proj : GeoPoint K → K × K) (dirVec : K → K × K)
    (logfn : K → K) (land : K × K → Bool) (rid os ds : String)
    (origin dest : GeoPoint K) :
    ∀ e ∈ (signature_core proj dirVec logfn land rid os ds origin dest).exposure_by_dir,
      0 ≤ e.2 ∧ e.2 ≤ 1 := by
  rw [sigV1_scores]
  intro e he
  obtain ⟨nd, _, rfl⟩ := List.mem_map.mp he
  have hc := clamp01_mem01 (K := K)
    (logfn (median ((sample_route_points proj origin dest SAMPLE_POINTS_PER_ROUTE).map fun point =>
      compute_fetch_distance dirVec point nd.2 land (MAX_FETCH_KM * 1000)) + 1)
        / logfn (MAX_FETCH_KM + 1))
  exact round_to_mem01 3 hc.1 hc.2

theorem sigV1_swap (proj : GeoPoint K → K × K) (dirVec : K → K × K)
    (logfn : K → K) (land : K × K → Bool) (rid rid' os ds os' ds' : String)
    (origin dest : GeoPoint K) :
    (signature_core proj dirVec logfn land rid' os' ds' dest origin).exposure_by_dir =
        (signature_core proj dirVec logfn land rid os ds origin dest).exposure_by_dir ∧
      (signature_core proj dirVec logfn land rid' os' ds' dest origin).fetch_km_by_dir =
        (signature_core proj dirVec logfn land rid os ds origin dest).fetch_km_by_dir ∧
      (signature_core proj dirVec logfn land rid' os' ds' dest origin).avg_exposure =
        (signature_core proj dirVec logfn land rid os ds origin dest).avg_exposure ∧
      (signature_core proj dirVec logfn land rid' os' ds' dest origin).top_exposure_dirs =
        (signature_core proj dirVec logfn land rid os ds origin dest).top_exposure_dirs := by
  have hpoints : sample_route_points proj dest origin SAMPLE_POINTS_PER_ROUTE =
      (sample_route_points proj origin dest SAMPLE_POINTS_PER_ROUTE).reverse :=
    samplePlanar_reverse _ _ _
  have hmed : ∀ nd : String × K,
      median ((sample_route_points proj dest origin SAMPLE_POINTS_PER_ROUTE).map fun point =>
        compute_fetch_distance dirVec point nd.2 land (MAX_FETCH_KM * 1000)) =
      median ((sample_route_points proj origin dest SAMPLE_POINTS_PER_ROUTE).map fun point =>
        compute_fetch_distance dirVec point nd.2 land (MAX_FETCH_KM * 1000)) := by
    intro nd
    rw [hpoints, List.map_reverse]
    exact median_perm _ _ (List.reverse_perm _)
  have hscores :
      (signature_core proj dirVec logfn land rid' os' ds' dest origin).exposure_by_dir =
      (signature_core proj dirVec logfn land rid os ds origin dest).exposure_by_dir := by
    rw [sigV1_scores, sigV1_scores]
    exact List.map_congr_left fun nd _ => by rw [hmed nd]
  have hfetch :
      (signature_core proj dirVec logfn land rid' os' ds' dest origin).fetch_km_by_dir =
      (signature_core proj dirVec logfn land rid os ds origin dest).fetch_km_by_dir := by
    rw [sigV1_fetch, sigV1_fetch]
    exact List.map_congr_left fun nd _ => by rw [hmed nd]
  refine ⟨hscores, hfetch, ?_, ?_⟩
  · rw [sigV1_mean, sigV1_mean, hscores]
  · rw [sigV1_top, sigV1_top, hscores]

end V1

/-- C3: for every pair of planar endpoints and every n >= 1, the route
sampler returns exactly n points, the i-th (0-based) being the linear
interpolation at parameter (i + 0.5) / n; for distinct endpoints no
returned point equals either endpoint, and the function is a pure
function of its arguments, so repeated calls agree. -/
theorem claim_C3 {K : Type} [LinearOrderedField K] (p1 p2 : K × K)
    (n : ℕ) (hn : 1 ≤ n) :
    (samplePlanar p1 p2 n).length = n ∧
    (∀ (i : ℕ) (hi : i < (samplePlanar p1 p2 n).length),
      (samplePlanar p1 p2 n)[i] =
        (p1.1 + (((i : K) + 1 / 2) / (n : K)) * (p2.1 - p1.1),
         p1.2 + (((i : K) + 1 / 2) / (n : K)) * (p2.2 - p1.2))) ∧
    (p1 ≠ p2 → ∀ pt ∈ samplePlanar p1 p2 n, pt ≠ p1 ∧ pt ≠ p2) ∧
    (∀ (proj : GeoPoint K → K × K) (o d : GeoPoint K),
      V1.sample_route_points proj o d n = samplePlanar (proj o) (proj d) n ∧
      V2.sample_route_points proj o d n = samplePlanar (proj o) (proj d) n) ∧
    samplePlanar p1 p2 n = samplePlanar p1 p2 n := by
  refine ⟨samplePlanar_length p1 p2 n, ?_, ?_, fun proj o d => ⟨rfl, rfl⟩, rfl⟩
  · intro i hi
    exact samplePlanar_getElem p1 p2 n i hi
  · intro hne pt hmem
    exact samplePlanar_mem_ne p1 p2 n hne pt hmem

/-- Witness for C3 at a concrete input. -/
theorem claim_C3_witness :
    1 ≤ 3 ∧
    ((samplePlanar ((0 : ℚ), 0) (1, 1) 3).length = 3 ∧
    (∀ (i : ℕ) (hi : i < (samplePlanar ((0 : ℚ), 0) (1, 1) 3).length),
      (samplePlanar ((0 : ℚ), 0) (1, 1) 3)[i] =
        (0 + (((i : ℚ) + 1 / 2) / (3 : ℚ)) * (1 - 0),
         0 + (((i : ℚ) + 1 / 2) / (3 : ℚ)) * (1 - 0))) ∧
    (((0 : ℚ), (0 : ℚ)) ≠ (1, 1) → ∀ pt ∈ samplePlanar ((0 : ℚ), 0) (1, 1) 3,
      pt ≠ ((0 : ℚ), 0) ∧ pt ≠ (1, 1)) ∧
    (∀ (proj : GeoPoint ℚ → ℚ × ℚ) (o d : GeoPoint ℚ),
      V1.sample_route_points proj o d 3 = samplePlanar (proj o) (proj d) 3 ∧
      V2.sample_route_points proj o d 3 = samplePlanar (proj o) (proj d) 3) ∧
    samplePlanar ((0 : ℚ), 0) (1, 1) 3 = samplePlanar ((0 : ℚ), 0) (1, 1) 3) :=
  ⟨by norm_num, claim_C3 ((0 : ℚ), 0) (1, 1) 3 (by norm_num)⟩

/-- C4 counterexample: calling the sampler with n = 0 does not signal
any error; both generations return the empty list as an ordinary
value (there is no exception path in sample_route_points). -/
theorem claim_C4_counterexample :
    V1.sample_route_points (K := ℚ) (fun g => (g.lat, g.lon)) ⟨0, 0⟩ ⟨1, 1⟩ 0 = [] ∧
    V2.sample_route_points (K := ℚ) (fun g => (g.lat, g.lon)) ⟨0, 0⟩ ⟨1, 1⟩ 0 = [] :=
  ⟨rfl, rfl⟩

/-- C4 (amended): calling the route sampler with sample count n = 0
returns the empty sequence of points (no InvalidConfiguration error is
signalled; the loop body simply runs zero times). -/
theorem claim_C4_amended {K : Type} [LinearOrderedField K]
    (proj : GeoPoint K → K × K) (o d : GeoPoint K) :
    V1.sample_route_points proj o d 0 = [] ∧
    V2.sample_route_points proj o d 0 = [] :=
  ⟨rfl, rfl⟩

/-- C6: the V1 log-fetch score model at the real instantiation
computes clamp01(ln(d+1)/ln(maxFetch+1)); it maps 0 to 0 and
MAX_FETCH_KM = 50 to 1, and is monotone non-decreasing on
nonnegative distances. -/
theorem claim_C6 :
    logFetchScore 0 = 0 ∧
    logFetchScore (V1.MAX_FETCH_KM : ℝ) = 1 ∧
    (∀ d1 d2 : ℝ, 0 ≤ d1 → d1 ≤ d2 → logFetchScore d1 ≤ logFetchScore d2) := by
  have hlog51 : (0 : ℝ) < Real.log (V1.MAX_FETCH_KM + 1) := by
    apply Real.log_pos
    norm_num [V1.MAX_FETCH_KM]
  refine ⟨?_, ?_, ?_⟩
  · simp [logFetchScore, V1.exposure_model, clamp01, Real.log_one]
  · unfold logFetchScore V1.exposure_model
    rw [div_self (ne_of_gt hlog51)]
    simp [clamp01]
  · intro d1 d2 h0 h12
    unfold logFetchScore V1.exposure_model clamp01
    have hmono : Real.log (d1 + 1) ≤ Real.log (d2 + 1) :=
      Real.log_le_log (by linarith) (by linarith)
    have hdiv : Real.log (d1 + 1) / Real.log (V1.MAX_FETCH_KM + 1) ≤
        Real.log (d2 + 1) / Real.log (V1.MAX_FETCH_KM + 1) := by
      rw [div_le_div_iff_of_pos_right hlog51]
      exact hmono
    exact max_le_max le_rfl (min_le_min le_rfl hdiv)

/-- Witness for C6 at concrete distances 1 and 2. -/
theorem claim_C6_witness :
    (0 : ℝ) ≤ 1 ∧ (1 : ℝ) ≤ 2 ∧ logFetchScore 1 ≤ logFetchScore 2 :=
  ⟨by norm_num, by norm_num, claim_C6.2.2 1 2 (by norm_num) (by norm_num)⟩

/-- C7 (amended): the V2 threshold-shelter reduction classifies a
point as sheltered exactly when its raw distance is at most the
threshold, and the stored score is (the 3-decimal rounding of)
1 - sheltered/total, which is exact at the script's sample count of
50; all sheltered gives 0, none sheltered gives 1; the representative
distance stored alongside is the 2-decimal rounding of the median of
the range-capped raw measurements, with no dependence on the
threshold (the rounding can change the value; see the
counterexample). -/
theorem claim_C7 {K : Type} [LinearOrderedField K] [FloorRing K]
    (ds : List K) (hne : ds ≠ []) :
    (V2.direction_stats ds).1 =
      round_to 3 (1 - ((ds.countP fun d => decide (d ≤ V2.SHELTER_THRESHOLD_KM)) : K)
        / (ds.length : K)) ∧
    ((∀ d ∈ ds, d ≤ V2.SHELTER_THRESHOLD_KM) → (V2.direction_stats ds).1 = 0) ∧
    ((∀ d ∈ ds, ¬ d ≤ V2.SHELTER_THRESHOLD_KM) → (V2.direction_stats ds).1 = 1) ∧
    (ds.length = V2.SAMPLE_POINTS_PER_ROUTE →
      (V2.direction_stats ds).1 =
        1 - ((ds.countP fun d => decide (d ≤ V2.SHELTER_THRESHOLD_KM)) : K) / 50) ∧
    (V2.direction_stats ds).2 =
      round_to 2 (median (ds.map fun d => min d V2.MAX_RAY_KM)) := by
  refine ⟨V2.direction_stats_fst ds, ?_, ?_, ?_, V2.direction_stats_snd ds⟩
  · exact V2.direction_stats_all_sheltered ds hne
  · exact V2.direction_stats_none_sheltered ds
  · intro hlen
    exact V2.direction_stats_exact_at_50 ds hlen

/-- Witness for C7 at a concrete measurement list. -/
theorem claim_C7_witness :
    ([(1 : ℚ), 5] ≠ []) ∧
    ((V2.direction_stats [(1 : ℚ), 5]).1 =
      round_to 3 (1 - (([(1 : ℚ), 5].countP fun d => decide (d ≤ V2.SHELTER_THRESHOLD_KM)) : ℚ)
        / (([(1 : ℚ), 5]).length : ℚ)) ∧
    ((∀ d ∈ [(1 : ℚ), 5], d ≤ V2.SHELTER_THRESHOLD_KM) →
      (V2.direction_stats [(1 : ℚ), 5]).1 = 0) ∧
    ((∀ d ∈ [(1 : ℚ), 5], ¬ d ≤ V2.SHELTER_THRESHOLD_KM) →
      (V2.direction_stats [(1 : ℚ), 5]).1 = 1) ∧
    (([(1 : ℚ), 5]).length = V2.SAMPLE_POINTS_PER_ROUTE →
      (V2.direction_stats [(1 : ℚ), 5]).1 =
        1 - (([(1 : ℚ), 5].countP fun d => decide (d ≤ V2.SHELTER_THRESHOLD_KM)) : ℚ) / 50) ∧
    (V2.direction_stats [(1 : ℚ), 5]).2 =
      round_to 2 (median ([(1 : ℚ), 5].map fun d => min d V2.MAX_RAY_KM))) :=
  ⟨by simp, claim_C7 [(1 : ℚ), 5] (by simp)⟩

/-- C8: every signature produced by either generation's signature
computer carries exactly the 16 compass directions as score keys, in
the fixed enumeration order, with no duplicates and no omissions, and
every per-direction score lies in [0, 1]. -/
theorem claim_C8 {K : Type} [LinearOrderedField K] [FloorRing K]
    (proj : GeoPoint K → K × K) (dirVec : K → K × K) (logfn : K → K)
    (land : K × K → Bool) (rid os ds : String) (origin dest : GeoPoint K) :
    ((V1.signature_core proj dirVec logfn land rid os ds origin dest).exposure_by_dir.map
        Prod.fst = compassNames ∧
      (V1.signature_core proj dirVec logfn land rid os ds origin dest).exposure_by_dir.length = 16 ∧
      ((V1.signature_core proj dirVec logfn land rid os ds origin dest).exposure_by_dir.map
        Prod.fst).Nodup ∧
      ∀ e ∈ (V1.signature_core proj dirVec logfn land rid os ds origin dest).exposure_by_dir,
        0 ≤ e.2 ∧ e.2 ≤ 1) ∧
    ((V2.signature_core proj dirVec land rid os ds origin dest).shelter_ratio_by_dir.map
        Prod.fst = compassNames ∧
      (V2.signature_core proj dirVec land rid os ds origin dest).shelter_ratio_by_dir.length = 16 ∧
      ((V2.signature_core proj dirVec land rid os ds origin dest).shelter_ratio_by_dir.map
        Prod.fst).Nodup ∧
      ∀ e ∈ (V2.signature_core proj dirVec land rid os ds origin dest).shelter_ratio_by_dir,
        0 ≤ e.2 ∧ e.2 ≤ 1) := by
  have hk1 := V1.sigV1_keys proj dirVec logfn land rid os ds origin dest
  have hk2 := V2.sigV2_keys proj dirVec land rid os ds origin dest
  refine ⟨⟨hk1, ?_, ?_, V1.sigV1_bounds proj dirVec logfn land rid os ds origin dest⟩,
    ⟨hk2, ?_, ?_, V2.sigV2_bounds proj dirVec land rid os ds origin dest⟩⟩
  · have := congrArg List.length hk1
    rw [List.length_map] at this
    rw [this]
    rfl
  · rw [hk1]
    exact compassNames_nodup
  · have := congrArg List.length hk2
    rw [List.length_map] at this
    rw [this]
    rfl
  · rw [hk2]
    exact compassNames_nodup

/-- C10: swapping a route's origin and destination reverses the sample
point sequence and leaves the signature body (per-direction scores,
per-direction representative distances, aggregate, top-3 list)
unchanged, in both generations, both at the level of resolved ports
and through the slug-lookup wrappers. -/
theorem claim_C10 {K : Type} [LinearOrderedField K] [FloorRing K]
    (proj : GeoPoint K → K × K) (dirVec : K → K × K) (logfn : K → K)
    (land : K × K → Bool) (rid rid' os ds : String)
    (origin dest : GeoPoint K) (n : ℕ) :
    (samplePlanar (proj dest) (proj origin) n =
      (samplePlanar (proj origin) (proj dest) n).reverse) ∧
    (V1.sig_body (V1.signature_core proj dirVec logfn land rid' ds os dest origin) =
      V1.sig_body (V1.signature_core proj dirVec logfn land rid os ds origin dest)) ∧
    (V2.sig_body (V2.signature_core proj dirVec land rid' ds os dest origin) =
      V2.sig_body (V2.signature_core proj dirVec land rid os ds origin dest)) ∧
    ((V1.compute_route_exposure proj dirVec logfn land rid' ds os).map V1.sig_body =
      (V1.compute_route_exposure proj dirVec logfn land rid os ds).map V1.sig_body) ∧
    ((V2.compute_shelter_signature proj dirVec land rid' ds os).map V2.sig_body =
      (V2.compute_shelter_signature proj dirVec land rid os ds).map V2.sig_body) := by
  have hb1 : ∀ o d : GeoPoint K,
      V1.sig_body (V1.signature_core proj dirVec logfn land rid' ds os d o) =
      V1.sig_body (V1.signature_core proj dirVec logfn land rid os ds o d) := by
    intro o d
    have h1 := V1.sigV1_swap proj dirVec logfn land rid rid' os ds ds os o d
    unfold V1.sig_body
    rw [h1.1, h1.2.1, h1.2.2.1, h1.2.2.2]
  have hb2 : ∀ o d : GeoPoint K,
      V2.sig_body (V2.signature_core proj dirVec land rid' ds os d o) =
      V2.sig_body (V2.signature_core proj dirVec land rid os ds o d) := by
    intro o d
    have h2 := V2.sigV2_swap proj dirVec land rid rid' os ds ds os o d
    unfold V2.sig_body
    rw [h2.1, h2.2.1, h2.2.2.1, h2.2.2.2]
  refine ⟨samplePlanar_reverse _ _ _, hb1 origin dest, hb2 origin dest, ?_, ?_⟩
  · unfold V1.compute_route_exposure
    cases hos : lookupPort (K := K) os <;> cases hds : lookupPort (K := K) ds <;>
      simp [hos, hds, hb1]
  · unfold V2.compute_shelter_signature
    cases hos : lookupPort (K := K) os <;> cases hds : lookupPort (K := K) ds <;>
      simp [hos, hds, hb2]

/-- C1 counterexample (V1): a result set on which the V1 ordering
validator returns failure, yet the V1 main tail persists the artifact
anyway — validate_results' return value is discarded at line 398 of
compute_route_exposure.py and the output is written unconditionally. -/
theorem claim_C1_counterexample :
    V1.validate_results exResultsV1 = false ∧
    V1.v1_finalize exResultsV1 = some exResultsV1 := by
  constructor
  · unfold V1.validate_results V1.route_exposures_get exResultsV1
    simp only [List.foldl]
    simp [Prod.ext_iff]
  · rfl

/-- C1 (amended): in the V2 generation the property holds — for every
result set on which the ordering validator returns failure, the main
tail stops with an ordering failure and the artifact is not written;
moreover any written outcome of the V2 main passed the ordering
validation.  (In V1, the check's boolean is computed but ignored and
the artifact is persisted regardless; see the counterexample.) -/
theorem claim_C1_amended {K : Type} [LinearOrderedField K] [FloorRing K]
    (results : List (V2.Sig K))
    (hfail : V2.validate_exposure_ordering results = false) :
    (V2.v2_finalize results = V2.Outcome.orderFail results ∧
      ∀ out, V2.v2_finalize results ≠ V2.Outcome.written out) ∧
    (∀ (distfn : GeoPoint K → GeoPoint K → K) (proj : GeoPoint K → K × K)
      (dirVec : K → K × K) (maskLoad : Option (K × K → Bool)) (out : List (V2.Sig K)),
      V2.v2_main distfn proj dirVec maskLoad = V2.Outcome.written out →
        V2.validate_exposure_ordering out = true) := by
  constructor
  · constructor
    · unfold V2.v2_finalize
      rw [hfail]
      simp
    · intro out hc
      unfold V2.v2_finalize at hc
      rw [hfail] at hc
      simp at hc
  · intro distfn proj dirVec maskLoad out hmain
    unfold V2.v2_main at hmain
    split at hmain
    · split at hmain
      · exact absurd hmain (by simp)
      · split at hmain
        · exact absurd hmain (by simp)
        · rename_i rs hrs
          unfold V2.v2_finalize at hmain
          by_cases hv : V2.validate_exposure_ordering rs = true
          · rw [if_pos hv] at hmain
            injection hmain with h
            rw [← h]
            exact hv
          · rw [if_neg hv] at hmain
            exact absurd hmain (by simp)
    · exact absurd hmain (by simp)

/-- Witness for C1 (amended) at a concrete failing result set. -/
theorem claim_C1_witness :
    V2.validate_exposure_ordering exResultsV2 = false ∧
    (V2.v2_finalize exResultsV2 = V2.Outcome.orderFail exResultsV2 ∧
      ∀ out, V2.v2_finalize exResultsV2 ≠ V2.Outcome.written out) := by
  have hfail : V2.validate_exposure_ordering exResultsV2 = false := by
    unfold V2.validate_exposure_ordering exResultsV2
    simp [List.find?]
  exact ⟨hfail, (claim_C1_amended exResultsV2 hfail).1⟩

/-- C2: the V2 distance validator checks the recomputed great-circle
distance of exactly the four configured port pairs against their
[min, max] km windows, and its failure is fatal before the land mask
is even loaded: for every mask (and so before any ray casting) the
pipeline outcome is distFail.  (V1 configures no distance windows, so
the property is vacuous there.) -/
theorem claim_C2 {K : Type} [LinearOrderedField K] [FloorRing K]
    (distfn : GeoPoint K → GeoPoint K → K) :
    (V2.validate_route_distances distfn = true ↔
      ((8 ≤ distfn (woodsHolePt K) (vineyardHavenPt K) ∧
          distfn (woodsHolePt K) (vineyardHavenPt K) ≤ 12) ∧
        (8 ≤ distfn (woodsHolePt K) (oakBluffsPt K) ∧
          distfn (woodsHolePt K) (oakBluffsPt K) ≤ 14) ∧
        (40 ≤ distfn (hyannisPt K) (nantucketPt K) ∧
          distfn (hyannisPt K) (nantucketPt K) ≤ 48) ∧
        (35 ≤ distfn (hyannisPt K) (vineyardHavenPt K) ∧
          distfn (hyannisPt K) (vineyardHavenPt K) ≤ 45))) ∧
    (V2.validate_route_distances distfn = false →
      ∀ (proj : GeoPoint K → K × K) (dirVec : K → K × K)
        (maskLoad : Option (K × K → Bool)),
        V2.v2_main distfn proj dirVec maskLoad = V2.Outcome.distFail) := by
  constructor
  · unfold V2.validate_route_distances EXPECTED_DISTANCES lookupPort PORTS
    simp [List.all_cons, List.lookup]
  · intro hfail proj dirVec maskLoad
    unfold V2.v2_main
    rw [if_neg (by simp [hfail])]

/-- Witness for C2 at the zero distance function, which violates every
window. -/
theorem claim_C2_witness :
    V2.validate_route_distances (K := ℚ) (fun _ _ => 0) = false ∧
    V2.v2_main (K := ℚ) (fun _ _ => 0) (fun g => (g.lat, g.lon))
      (fun d => (d, d)) (some fun _ => true) = V2.Outcome.distFail := by
  have hfalse : V2.validate_route_distances (K := ℚ) (fun _ _ => 0) = false := by
    cases hb : V2.validate_route_distances (K := ℚ) (fun _ _ => 0) with
    | false => rfl
    | true =>
      have h8 := ((claim_C2 (K := ℚ) (fun _ _ => 0)).1.mp hb).1.1
      norm_num at h8
  exact ⟨hfalse, (claim_C2 (K := ℚ) (fun _ _ => 0)).2 hfalse _ _ _⟩

theorem castLoop_congr {K : Type} [LinearOrderedField K] (point dir : K × K)
    (land land' : K × K → Bool) (step_m : K) (k fuel : ℕ)
    (h : ∀ i, k ≤ i → i < k + fuel →
      land' (rayProbe point dir step_m i) = land (rayProbe point dir step_m i)) :
    castLoop point dir land' step_m k fuel = castLoop point dir land step_m k fuel := by
  induction fuel generalizing k with
  | zero => rfl
  | succ fuel ih =>
    rw [castLoop, castLoop]
    rw [h k le_rfl (by omega)]
    by_cases hl : land (rayProbe point dir step_m k) = true
    · rw [if_pos hl, if_pos hl]
    · rw [if_neg hl, if_neg hl]
      exact ih (k + 1) fun i h1 h2 => h i (by omega) (by omega)

/-- C5 counterexample: with step 100 m and maximum range 250 m (the
source function takes the maximum range as a parameter), the marching
loop numpy.arange(100, 350, 100) also probes 300 m, beyond the
maximum range, so the returned distance 0.3 km exceeds the capped
maximum 0.25 km, contradicting the claim's range bound for arbitrary
positive step and maximum. -/
theorem claim_C5_counterexample :
    V1.compute_fetch_distance (K := ℚ) (fun _ => (0, 1)) (0, 0) 0
      (fun q => decide (260 ≤ q.2)) 250 = 3 / 10 ∧
    ¬ (3 / 10 ≤ (250 : ℚ) / 1000) := by
  constructor
  · unfold V1.compute_fetch_distance V1.RAY_STEP_M
    have hfuel : ⌈(250 : ℚ) / 100⌉₊ = 3 := by
      rw [Nat.ceil_eq_iff (by norm_num)]
      norm_num
    have h := castCore_eq_first_hit ((0 : ℚ), 0) (0, 1)
      (fun q => decide (260 ≤ q.2)) 250 100 3 (by norm_num)
      (by rw [hfuel]) (by norm_num [rayProbe])
      (by
        intro i h1 h2
        interval_cases i <;> norm_num [rayProbe])
    rw [h]
    norm_num
  · norm_num

/-- C5 (amended): for every starting point, direction, land mask,
positive step size and maximum range that is a whole positive multiple
of the step (as in both shipped configurations), the ray caster probes
the mask exactly at cumulative distances step, 2*step, ..., max (never
at the origin, whose mask value is irrelevant when the direction is
nonzero); it returns the first contained probe's cumulative distance
(in km), or exactly the maximum range if none is contained, and the
result always lies between one step size and the maximum range. -/
theorem claim_C5_amended {K : Type} [LinearOrderedField K] [FloorRing K]
    (point dir : K × K) (land : K × K → Bool) (step_m : K) (m : ℕ)
    (max_distance_m : K) (hstep : 0 < step_m) (hm : 1 ≤ m)
    (hmax : max_distance_m = (m : K) * step_m) :
    ((∀ k, 1 ≤ k → k ≤ m → land (rayProbe point dir step_m k) = false) →
      castCore point dir land max_distance_m step_m = max_distance_m / 1000) ∧
    (∀ j, 1 ≤ j → j ≤ m → land (rayProbe point dir step_m j) = true →
      (∀ i, 1 ≤ i → i < j → land (rayProbe point dir step_m i) = false) →
      castCore point dir land max_distance_m step_m = ((j : K) * step_m) / 1000) ∧
    (step_m / 1000 ≤ castCore point dir land max_distance_m step_m ∧
      castCore point dir land max_distance_m step_m ≤ max_distance_m / 1000) ∧
    (dir ≠ (0, 0) → ∀ land' : K × K → Bool,
      (∀ q, q ≠ point → land' q = land q) →
      castCore point dir land' max_distance_m step_m =
        castCore point dir land max_distance_m step_m) := by
  have hfuel : ⌈max_distance_m / step_m⌉₊ = m := by
    rw [hmax]
    exact castCore_fuel m step_m hstep
  refine ⟨?_, ?_, ?_, ?_⟩
  · intro hnone
    apply castCore_eq_max
    intro i h1 h2
    rw [hfuel] at h2
    exact hnone i h1 h2
  · intro j h1 h2 hhit hbefore
    exact castCore_eq_first_hit point dir land max_distance_m step_m j h1
      (by rw [hfuel]; exact h2) hhit hbefore
  · unfold castCore
    cases hres : castLoop point dir land step_m 1 ⌈max_distance_m / step_m⌉₊ with
    | some k =>
      obtain ⟨hk1, hk2, _, _⟩ := (castLoop_eq_some_iff point dir land step_m k 1 _).mp hres
      rw [hfuel] at hk2
      have hkm : k ≤ m := by omega
      have hkK : (1 : K) ≤ (k : K) := by exact_mod_cast hk1
      have hkmK : (k : K) ≤ (m : K) := by exact_mod_cast hkm
      constructor
      · rw [div_le_div_iff_of_pos_right (by norm_num : (0 : K) < 1000)]
        nlinarith
      · rw [hmax]
        rw [div_le_div_iff_of_pos_right (by norm_num : (0 : K) < 1000)]
        nlinarith
    | none =>
      have hmK : (1 : K) ≤ (m : K) := by exact_mod_cast hm
      constructor
      · rw [hmax]
        rw [div_le_div_iff_of_pos_right (by norm_num : (0 : K) < 1000)]
        nlinarith
      · exact le_rfl
  · intro hdir land' hland
    unfold castCore
    rw [castLoop_congr point dir land land' step_m 1 _ ?_]
    intro i h1 _
    apply hland
    intro hc
    have hx : point.1 + dir.1 * ((i : K) * step_m) = point.1 := congrArg Prod.fst hc
    have hy : point.2 + dir.2 * ((i : K) * step_m) = point.2 := congrArg Prod.snd hc
    have hstep' : (0 : K) < (i : K) * step_m := by
      have : (1 : K) ≤ (i : K) := by exact_mod_cast h1
      nlinarith
    apply hdir
    have hd1 : dir.1 = 0 := by
      rcases mul_eq_zero.mp (by linarith : dir.1 * ((i : K) * step_m) = 0) with h | h
      · exact h
      · exact absurd h (ne_of_gt hstep')
    have hd2 : dir.2 = 0 := by
      rcases mul_eq_zero.mp (by linarith : dir.2 * ((i : K) * step_m) = 0) with h | h
      · exact h
      · exact absurd h (ne_of_gt hstep')
    exact Prod.ext hd1 hd2

/-- Witness for C5 (amended) at a concrete configuration
(step 100 m, maximum range 600 m = 6 steps). -/
theorem claim_C5_witness :
    (0 : ℚ) < 100 ∧ 1 ≤ 6 ∧ (600 : ℚ) = ((6 : ℕ) : ℚ) * 100 ∧
    (((∀ k, 1 ≤ k → k ≤ 6 →
        (fun q : ℚ × ℚ => decide (250 ≤ q.2)) (rayProbe ((0 : ℚ), 0) (0, 1) 100 k) = false) →
      castCore ((0 : ℚ), 0) (0, 1) (fun q => decide (250 ≤ q.2)) 600 100 = 600 / 1000) ∧
    (∀ j, 1 ≤ j → j ≤ 6 →
      (fun q : ℚ × ℚ => decide (250 ≤ q.2)) (rayProbe ((0 : ℚ), 0) (0, 1) 100 j) = true →
      (∀ i, 1 ≤ i → i < j →
        (fun q : ℚ × ℚ => decide (250 ≤ q.2)) (rayProbe ((0 : ℚ), 0) (0, 1) 100 i) = false) →
      castCore ((0 : ℚ), 0) (0, 1) (fun q => decide (250 ≤ q.2)) 600 100 = ((j : ℚ) * 100) / 1000) ∧
    ((100 : ℚ) / 1000 ≤ castCore ((0 : ℚ), 0) (0, 1) (fun q => decide (250 ≤ q.2)) 600 100 ∧
      castCore ((0 : ℚ), 0) (0, 1) (fun q => decide (250 ≤ q.2)) 600 100 ≤ 600 / 1000) ∧
    (((0 : ℚ), (1 : ℚ)) ≠ (0, 0) → ∀ land' : ℚ × ℚ → Bool,
      (∀ q, q ≠ ((0 : ℚ), 0) → land' q = (fun q : ℚ × ℚ => decide (250 ≤ q.2)) q) →
      castCore ((0 : ℚ), 0) (0, 1) land' 600 100 =
        castCore ((0 : ℚ), 0) (0, 1) (fun q => decide (250 ≤ q.2)) 600 100)) :=
  ⟨by norm_num, by norm_num, by norm_num,
    claim_C5_amended ((0 : ℚ), 0) (0, 1) (fun q => decide (250 ≤ q.2)) 100 6 600
      (by norm_num) (by norm_num) (by norm_num)⟩

theorem cex_fuel : ⌈((V2.MAX_RAY_KM : ℚ) * 1000) / V2.RAY_STEP_M⌉₊ = 600 := by
  rw [show ((V2.MAX_RAY_KM : ℚ) * 1000) / V2.RAY_STEP_M = ((600 : ℕ) : ℚ) by
    norm_num [V2.MAX_RAY_KM, V2.RAY_STEP_M]]
  exact Nat.ceil_natCast 600

theorem cex_cast_far (point : ℚ × ℚ) (hpt : 0 ≤ point.1) :
    castCore point (1000000, 0) cexLand ((V2.MAX_RAY_KM : ℚ) * 1000)
      V2.RAY_STEP_M = 1 / 20 := by
  have h := castCore_eq_first_hit point (1000000, 0) cexLand
    ((V2.MAX_RAY_KM : ℚ) * 1000) V2.RAY_STEP_M 1 le_rfl
    (by rw [cex_fuel]; omega)
    (by
      simp only [cexLand, rayProbe, V2.RAY_STEP_M, decide_eq_true_eq]
      right
      right
      push_cast
      nlinarith)
    (fun i h1 h2 => (by omega : False).elim)
  rw [h]
  norm_num [V2.RAY_STEP_M]

theorem cex_cast_n_sheltered (i : ℕ) (hi : i ≤ 48) :
    castCore ((2 * (i : ℚ) + 1), 0) (1, 0) cexLand ((V2.MAX_RAY_KM : ℚ) * 1000)
      V2.RAY_STEP_M = 1 / 20 := by
  have hik : ((i : ℚ)) ≤ 48 := by exact_mod_cast hi
  have h := castCore_eq_first_hit ((2 * (i : ℚ) + 1), 0) (1, 0) cexLand
    ((V2.MAX_RAY_KM : ℚ) * 1000) V2.RAY_STEP_M 1 le_rfl
    (by rw [cex_fuel]; omega)
    (by
      simp only [cexLand, rayProbe, V2.RAY_STEP_M, decide_eq_true_eq]
      left
      constructor
      · push_cast
        nlinarith [Nat.cast_nonneg (α := ℚ) i]
      · push_cast
        nlinarith)
    (fun i h1 h2 => (by omega : False).elim)
  rw [h]
  norm_num [V2.RAY_STEP_M]

theorem cex_cast_n_open :
    castCore ((99 : ℚ), 0) (1, 0) cexLand ((V2.MAX_RAY_KM : ℚ) * 1000)
      V2.RAY_STEP_M = 61 / 20 := by
  have h := castCore_eq_first_hit ((99 : ℚ), 0) (1, 0) cexLand
    ((V2.MAX_RAY_KM : ℚ) * 1000) V2.RAY_STEP_M 61 (by omega)
    (by rw [cex_fuel]; omega)
    (by
      simp only [cexLand, rayProbe, V2.RAY_STEP_M, decide_eq_true_eq]
      right
      left
      norm_num)
    (by
      intro i h1 h2
      have hi1 : (1 : ℚ) ≤ (i : ℚ) := by exact_mod_cast h1
      have hi2 : ((i : ℚ)) ≤ 60 := by exact_mod_cast Nat.lt_succ_iff.mp (by omega)
      simp only [cexLand, rayProbe, V2.RAY_STEP_M, decide_eq_false_iff_not]
      rintro (⟨ha, hb⟩ | ⟨ha, hb⟩ | ha) <;> nlinarith)
  rw [h]
  norm_num [V2.RAY_STEP_M]

theorem cex_points :
    V2.sample_route_points cexProj cexOrigin cexDest V2.SAMPLE_POINTS_PER_ROUTE =
      (List.range 50).map (fun (i : ℕ) => ((2 * (i : ℚ) + 1), (0 : ℚ))) := by
  rw [show V2.sample_route_points cexProj cexOrigin cexDest V2.SAMPLE_POINTS_PER_ROUTE =
    samplePlanar (cexProj cexOrigin) (cexProj cexDest) 50 from rfl]
  rw [samplePlanar_eq_map]
  apply List.map_congr_left
  intro i _
  unfold samplePoint cexProj cexOrigin cexDest
  simp only
  rw [Prod.ext_iff]
  constructor
  · show (0 : ℚ) + ((i : ℚ) + 1 / 2) / ((50 : ℕ) : ℚ) * (100 - 0) = 2 * (i : ℚ) + 1
    push_cast
    field_simp
    ring
  · show (0 : ℚ) + ((i : ℚ) + 1 / 2) / ((50 : ℕ) : ℚ) * (0 - 0) = 0
    ring

theorem cex_ds_far (deg : ℚ) (hdeg : ¬ deg = 0) :
    (V2.sample_route_points cexProj cexOrigin cexDest V2.SAMPLE_POINTS_PER_ROUTE).map
      (fun point => V2.cast_ray_to_land cexDirVec point deg cexLand
        (V2.MAX_RAY_KM * 1000)) = List.replicate 50 (1 / 20 : ℚ) := by
  rw [cex_points, List.map_map]
  apply List.eq_replicate_iff.mpr
  constructor
  · simp
  · intro b hb
    obtain ⟨i, _, rfl⟩ := List.mem_map.mp hb
    show V2.cast_ray_to_land cexDirVec ((2 * (i : ℚ) + 1), 0) deg cexLand
      (V2.MAX_RAY_KM * 1000) = 1 / 20
    unfold V2.cast_ray_to_land cexDirVec
    rw [if_neg hdeg]
    apply cex_cast_far
    have : (0 : ℚ) ≤ (i : ℚ) := Nat.cast_nonneg i
    show (0 : ℚ) ≤ 2 * (i : ℚ) + 1
    linarith

theorem cex_ds_n :
    (V2.sample_route_points cexProj cexOrigin cexDest V2.SAMPLE_POINTS_PER_ROUTE).map
      (fun point => V2.cast_ray_to_land cexDirVec point 0 cexLand
        (V2.MAX_RAY_KM * 1000)) =
      List.replicate 49 (1 / 20 : ℚ) ++ [61 / 20] := by
  rw [cex_points, List.map_map]
  apply List.ext_getElem
  · simp
  · intro i h1 h2
    have hi : i < 50 := by simpa using h1
    simp only [List.getElem_map, List.getElem_range, Function.comp_apply]
    have hcast : V2.cast_ray_to_land cexDirVec ((2 * (i : ℚ) + 1), 0) 0 cexLand
        (V2.MAX_RAY_KM * 1000) =
        castCore ((2 * (i : ℚ) + 1), 0) (1, 0) cexLand ((V2.MAX_RAY_KM : ℚ) * 1000)
          V2.RAY_STEP_M := by
      unfold V2.cast_ray_to_land cexDirVec
      rw [if_pos rfl]
    rcases Nat.lt_or_ge i 49 with h49 | h49
    · rw [List.getElem_append_left (by simpa using h49)]
      rw [List.getElem_replicate]
      rw [hcast]
      exact cex_cast_n_sheltered i (by omega)
    · have hi49 : i = 49 := by omega
      subst hi49
      rw [List.getElem_append_right (by simp)]
      simp only [List.length_replicate]
      rw [hcast]
      rw [show (2 * ((49 : ℕ) : ℚ) + 1) = 99 by norm_num]
      rw [cex_cast_n_open]
      simp

theorem cex_stats_far (deg : ℚ) (hdeg : ¬ deg = 0) :
    (V2.direction_stats
      ((V2.sample_route_points cexProj cexOrigin cexDest V2.SAMPLE_POINTS_PER_ROUTE).map
        fun point => V2.cast_ray_to_land cexDirVec point deg cexLand
          (V2.MAX_RAY_KM * 1000))).1 = 0 := by
  rw [cex_ds_far deg hdeg]
  apply V2.direction_stats_all_sheltered
  · simp
  · intro d hd
    rw [List.eq_of_mem_replicate hd]
    norm_num [V2.SHELTER_THRESHOLD_KM]

theorem cex_stats_n :
    (V2.direction_stats
      ((V2.sample_route_points cexProj cexOrigin cexDest V2.SAMPLE_POINTS_PER_ROUTE).map
        fun point => V2.cast_ray_to_land cexDirVec point 0 cexLand
          (V2.MAX_RAY_KM * 1000))).1 = 1 / 50 := by
  rw [cex_ds_n]
  rw [V2.direction_stats_fst]
  have h1 : (List.replicate 49 (1 / 20 : ℚ)).countP
      (fun d => decide (d ≤ V2.SHELTER_THRESHOLD_KM)) = 49 := by
    have hall : (List.replicate 49 (1 / 20 : ℚ)).countP
        (fun d => decide (d ≤ V2.SHELTER_THRESHOLD_KM)) =
        (List.replicate 49 (1 / 20 : ℚ)).length := by
      apply List.countP_eq_length.mpr
      intro a ha
      rw [List.eq_of_mem_replicate ha]
      norm_num [V2.SHELTER_THRESHOLD_KM]
    rw [hall, List.length_replicate]
  have h2 : ([(61 / 20 : ℚ)]).countP
      (fun d => decide (d ≤ V2.SHELTER_THRESHOLD_KM)) = 0 := by
    simp only [List.countP_cons, List.countP_nil]
    norm_num [V2.SHELTER_THRESHOLD_KM]
  rw [List.countP_append, h1, h2]
  have hlen : (List.replicate 49 (1 / 20 : ℚ) ++ [61 / 20]).length = 50 := by
    simp
  rw [hlen]
  rw [show (1 : ℚ) - (((49 + 0 : ℕ)) : ℚ) / ((50 : ℕ) : ℚ) = 1 / 50 by push_cast; norm_num]
  apply round_to_fix 3 _ 20
  norm_num

theorem cex_scores :
    cexSig.shelter_ratio_by_dir =
      [("N", (1 / 50 : ℚ)), ("NNE", 0), ("NE", 0), ("ENE", 0),
       ("E", 0), ("ESE", 0), ("SE", 0), ("SSE", 0),
       ("S", 0), ("SSW", 0), ("SW", 0), ("WSW", 0),
       ("W", 0), ("WNW", 0), ("NW", 0), ("NNW", 0)] := by
  show (V2.signature_core cexProj cexDirVec cexLand "wh-vh-ssa" "woods-hole"
    "vineyard-haven" cexOrigin cexDest).shelter_ratio_by_dir = _
  rw [V2.sigV2_scores]
  rw [show COMPASS_DIRECTIONS ℚ =
    [("N", 0), ("NNE", 45 / 2), ("NE", 45), ("ENE", 135 / 2),
     ("E", 90), ("ESE", 225 / 2), ("SE", 135), ("SSE", 315 / 2),
     ("S", 180), ("SSW", 405 / 2), ("SW", 225), ("WSW", 495 / 2),
     ("W", 270), ("WNW", 585 / 2), ("NW", 315), ("NNW", 675 / 2)] from rfl]
  simp only [List.map_cons, List.map_nil]
  rw [cex_stats_n,
    cex_stats_far (45 / 2) (by norm_num), cex_stats_far 45 (by norm_num),
    cex_stats_far (135 / 2) (by norm_num), cex_stats_far 90 (by norm_num),
    cex_stats_far (225 / 2) (by norm_num), cex_stats_far 135 (by norm_num),
    cex_stats_far (315 / 2) (by norm_num), cex_stats_far 180 (by norm_num),
    cex_stats_far (405 / 2) (by norm_num), cex_stats_far 225 (by norm_num),
    cex_stats_far (495 / 2) (by norm_num), cex_stats_far 270 (by norm_num),
    cex_stats_far (585 / 2) (by norm_num), cex_stats_far 315 (by norm_num),
    cex_stats_far (675 / 2) (by norm_num)]

/-- C9 counterexample: a computed V2 signature whose stored aggregate
(0.001, the 3-decimal rounding) differs from the exact arithmetic
mean of its 16 stored per-direction scores (0.00125): the aggregate
is the rounded mean, not the mean. -/
theorem claim_C9_counterexample :
    cexSig.mean_shelter = 1 / 1000 ∧
    listMean (cexSig.shelter_ratio_by_dir.map Prod.snd) = 1 / 800 ∧
    cexSig.mean_shelter ≠ listMean (cexSig.shelter_ratio_by_dir.map Prod.snd) := by
  have hmean : listMean (cexSig.shelter_ratio_by_dir.map Prod.snd) = 1 / 800 := by
    rw [cex_scores]
    unfold listMean
    simp only [List.map_cons, List.map_nil, List.sum_cons, List.sum_nil,
      List.length_cons, List.length_nil]
    norm_num
  have hms : cexSig.mean_shelter =
      round_to 3 (listMean (cexSig.shelter_ratio_by_dir.map Prod.snd)) :=
    V2.sigV2_mean cexProj cexDirVec cexLand "wh-vh-ssa" "woods-hole"
      "vineyard-haven" cexOrigin cexDest
  have hround : round_to 3 ((1 : ℚ) / 800) = 1 / 1000 := by
    unfold round_to
    rw [show ((1 : ℚ) / 800) * 10 ^ 3 = 5 / 4 by norm_num]
    rw [round_eq]
    rw [show ((5 : ℚ) / 4) + 1 / 2 = 7 / 4 by norm_num]
    rw [show ⌊(7 / 4 : ℚ)⌋ = 1 from Int.floor_eq_iff.mpr (by norm_num)]
    norm_num
  refine ⟨?_, hmean, ?_⟩
  · rw [hms, hmean, hround]
  · rw [hms, hmean, hround]
    norm_num

theorem getElem_pair_sublist {β : Type} (l : List β) (i j : ℕ)
    (hi : i < l.length) (hj : j < l.length) (hij : i < j) :
    List.Sublist [l[i], l[j]] l := by
  have hdropi : List.Sublist (l.drop i) l := List.drop_sublist i l
  have hcons : l.drop i = (l[i]) :: l.drop (i + 1) :=
    List.drop_eq_getElem_cons hi
  have hjmem : (l[j]) ∈ l.drop (i + 1) := by
    have hk : j - (i + 1) < (l.drop (i + 1)).length := by
      rw [List.length_drop]
      omega
    have heq : (l.drop (i + 1))[j - (i + 1)] = l[j] := by
      rw [List.getElem_drop]
      congr 1
      omega
    rw [← heq]
    exact List.getElem_mem hk
  have hsub2 : List.Sublist [l[i], l[j]] ((l[i]) :: l.drop (i + 1)) :=
    List.Sublist.cons₂ _ (List.singleton_sublist.mpr hjmem)
  have hsub3 : List.Sublist [l[i], l[j]] (l.drop i) := by
    rw [hcons]
    exact hsub2
  exact hsub3.trans hdropi

theorem pair_sublist_to_indices {β : Type} (s : List β) (a b : β)
    (h : List.Sublist [a, b] s) :
    ∃ (i j : ℕ) (hi : i < s.length) (hj : j < s.length),
      i < j ∧ s[i] = a ∧ s[j] = b := by
  induction s with
  | nil => exact absurd (List.sublist_nil.mp h) (by simp)
  | cons x s ih =>
    cases h with
    | cons₂ _ h2 =>
      have hbmem : b ∈ s := List.singleton_sublist.mp h2
      obtain ⟨j, hj, hjb⟩ := List.getElem_of_mem hbmem
      refine ⟨0, j + 1, by simp, by simp only [List.length_cons]; omega,
        by omega, rfl, ?_⟩
      rw [List.getElem_cons_succ]
      exact hjb
    | cons _ h2 =>
      obtain ⟨i, j, hi, hj, hij, hia, hjb⟩ := ih h2
      refine ⟨i + 1, j + 1, by simp only [List.length_cons]; omega,
        by simp only [List.length_cons]; omega, by omega, ?_, ?_⟩
      · rw [List.getElem_cons_succ]
        exact hia
      · rw [List.getElem_cons_succ]
        exact hjb

theorem pair_sublist_antisymm {β : Type} (s : List β) (hnd : s.Nodup)
    (a b : β) (h1 : List.Sublist [a, b] s) (h2 : List.Sublist [b, a] s) :
    a = b := by
  obtain ⟨i, j, hi, hj, hij, hia, hjb⟩ := pair_sublist_to_indices s a b h1
  obtain ⟨p, q, hp, hq, hpq, hpb, hqa⟩ := pair_sublist_to_indices s b a h2
  have hiq : i = q := hnd.getElem_inj_iff.mp (by rw [hia, hqa])
  have hjp : j = p := hnd.getElem_inj_iff.mp (by rw [hjb, hpb])
  omega

/-- If a appears before b in the top-3 list, then at their positions
in the scored table either a scores strictly higher, or they tie with
a earlier in the table (descending stable order). -/
theorem top3Names_ordered {K : Type} [LinearOrderedField K]
    (l : List (String × K)) (hnd : (l.map Prod.fst).Nodup)
    (a b : String) (hab : List.Sublist [a, b] (top3Names l))
    (i j : ℕ) (hi : i < l.length) (hj : j < l.length)
    (hia : (l[i]).1 = a) (hjb : (l[j]).1 = b) :
    (l[j]).2 < (l[i]).2 ∨ ((l[i]).2 = (l[j]).2 ∧ i < j) := by
  set s := l.mergeSort descBySnd with hs
  have hsnd : (s.map Prod.fst).Nodup := sortDesc_fst_nodup l hnd
  have hnds : s.Nodup := hsnd.of_map
  obtain ⟨p, q, hp, hq, hpq, hpa, hqb⟩ := pair_sublist_to_indices _ a b hab
  have hplen : p < (s.take 3).length := by
    have hx := hp
    rw [top3Names, List.length_map] at hx
    exact hx
  have hqlen : q < (s.take 3).length := by
    have hx := hq
    rw [top3Names, List.length_map] at hx
    exact hx
  have hpa2 : ((s.take 3).get ⟨p, hplen⟩).1 = a := by
    rw [← hpa]
    exact (List.getElem_map Prod.fst).symm
  have hqb2 : ((s.take 3).get ⟨q, hqlen⟩).1 = b := by
    rw [← hqb]
    exact (List.getElem_map Prod.fst).symm
  have hpmem : (s.take 3).get ⟨p, hplen⟩ ∈ l := by
    have hx : (s.take 3).get ⟨p, hplen⟩ ∈ s :=
      List.mem_of_mem_take (List.getElem_mem hplen)
    exact (sortDesc_perm l).mem_iff.mp hx
  have hqmem : (s.take 3).get ⟨q, hqlen⟩ ∈ l := by
    have hx : (s.take 3).get ⟨q, hqlen⟩ ∈ s :=
      List.mem_of_mem_take (List.getElem_mem hqlen)
    exact (sortDesc_perm l).mem_iff.mp hx
  have hea : l[i] = (s.take 3).get ⟨p, hplen⟩ :=
    entry_eq_of_fst_eq l hnd _ _ (List.getElem_mem hi) hpmem (by rw [hia, hpa2])
  have heb : l[j] = (s.take 3).get ⟨q, hqlen⟩ :=
    entry_eq_of_fst_eq l hnd _ _ (List.getElem_mem hj) hqmem (by rw [hjb, hqb2])
  have hge : ((s.take 3).get ⟨q, hqlen⟩).2 ≤ ((s.take 3).get ⟨p, hplen⟩).2 := by
    have hpw : (s.take 3).Pairwise (fun x y => y.2 ≤ x.2) :=
      (sortDesc_sorted l).sublist (List.take_sublist 3 s)
    exact List.pairwise_iff_getElem.mp hpw p q hplen hqlen hpq
  have hab_ne : a ≠ b := by
    intro habeq
    have hndtop : (top3Names l).Nodup := top3Names_nodup l hnd
    have : p = q := hndtop.getElem_inj_iff.mp (by rw [hpa, hqb, habeq])
    omega
  have hij_ne : i ≠ j := by
    intro hieq
    apply hab_ne
    subst hieq
    rw [← hia, ← hjb]
  rcases lt_or_eq_of_le hge with hlt | heq2
  · left
    rw [hea, heb]
    exact hlt
  · right
    have heqscore : (l[i]).2 = (l[j]).2 := by
      rw [hea, heb]
      exact heq2.symm
    refine ⟨heqscore, ?_⟩
    by_contra hji
    push_neg at hji
    have hij2 : j < i := by omega
    have hpair1 : List.Sublist [l[j], l[i]] l :=
      getElem_pair_sublist l j i hj hi hij2
    have hle : descBySnd (l[j]) (l[i]) = true := by
      simp only [descBySnd, decide_eq_true_eq]
      rw [heqscore]
    have hpair1s : List.Sublist [l[j], l[i]] s :=
      List.pair_sublist_mergeSort descBySnd_trans descBySnd_total hle hpair1
    have hpair2s : List.Sublist [l[i], l[j]] s := by
      have hpt : List.Sublist [(s.take 3).get ⟨p, hplen⟩, (s.take 3).get ⟨q, hqlen⟩]
          (s.take 3) := getElem_pair_sublist (s.take 3) p q hplen hqlen hpq
      rw [← hea, ← heb] at hpt
      exact hpt.trans (List.take_sublist 3 s)
    have heq3 : l[i] = l[j] := pair_sublist_antisymm s hnds _ _ hpair2s hpair1s
    have hndl : l.Nodup := hnd.of_map
    exact hij_ne (hndl.getElem_inj_iff.mp heq3)

theorem scored_top_props {K : Type} [LinearOrderedField K]
    (scored : List (String × K)) (hkeys : scored.map Prod.fst = compassNames) :
    (top3Names scored).length = 3 ∧
    (top3Names scored).Nodup ∧
    (∀ nm ∈ top3Names scored, nm ∈ compassNames) ∧
    (∀ e ∈ scored, ∀ f ∈ scored,
      e.1 ∈ top3Names scored → f.1 ∉ top3Names scored → f.2 ≤ e.2) ∧
    (∀ i j : ℕ, i < 16 → j < 16 → i < j →
      (scored.getD i ("", 0)).2 = (scored.getD j ("", 0)).2 →
      (scored.getD j ("", 0)).1 ∈ top3Names scored →
      (scored.getD i ("", 0)).1 ∈ top3Names scored) ∧
    (∀ a b : String, List.Sublist [a, b] (top3Names scored) →
      ∀ i j : ℕ, i < 16 → j < 16 →
        (scored.getD i ("", 0)).1 = a → (scored.getD j ("", 0)).1 = b →
        ((scored.getD j ("", 0)).2 < (scored.getD i ("", 0)).2 ∨
          ((scored.getD i ("", 0)).2 = (scored.getD j ("", 0)).2 ∧ i < j))) := by
  have hnd : (scored.map Prod.fst).Nodup := by
    rw [hkeys]
    exact compassNames_nodup
  have hlen : scored.length = 16 := by
    have := congrArg List.length hkeys
    rw [List.length_map] at this
    rw [this]
    rfl
  refine ⟨top3Names_length scored (by omega), top3Names_nodup scored hnd, ?_, 
    top3Names_dominates scored hnd, ?_, ?_⟩
  · intro nm h
    rw [← hkeys]
    exact top3Names_subset scored nm h
  · intro i j hi hj hij heq hjin
    have hi' : i < scored.length := by omega
    have hj' : j < scored.length := by omega
    rw [List.getD_eq_getElem scored ("", 0) hi'] at heq ⊢
    rw [List.getD_eq_getElem scored ("", 0) hj'] at heq hjin
    exact top3Names_stable scored hnd i j hi' hj' hij heq hjin
  · intro a b hab i j hi hj hia hjb
    have hi' : i < scored.length := by omega
    have hj' : j < scored.length := by omega
    rw [List.getD_eq_getElem scored ("", 0) hi'] at hia ⊢
    rw [List.getD_eq_getElem scored ("", 0) hj'] at hjb ⊢
    exact top3Names_ordered scored hnd a b hab i j hi' hj' hia hjb

/-- C9 (amended): in every computed signature of either generation the
stored aggregate equals the 3-decimal rounding of the arithmetic mean
of the 16 stored per-direction scores (the exact mean in the common
case that it is representable in 3 decimals, but not in general — see
the counterexample), and the top-3 list consists of 3 distinct
direction names such that every direction in it scores at least as
high as every direction outside it, ties at the cutoff being broken in
favour of the earlier direction in the fixed CompassDirection
enumeration order, and the list itself is ordered descending by score,
entries with equal scores appearing in enumeration-table order (stable
descending sort). -/
theorem claim_C9_amended {K : Type} [LinearOrderedField K] [FloorRing K]
    (proj : GeoPoint K → K × K) (dirVec : K → K × K) (logfn : K → K)
    (land : K × K → Bool) (rid os ds : String) (origin dest : GeoPoint K) :
    ((V1.signature_core proj dirVec logfn land rid os ds origin dest).avg_exposure =
        round_to 3
          (((V1.signature_core proj dirVec logfn land rid os ds origin dest).exposure_by_dir.map
            Prod.snd).sum / 16) ∧
      (V1.signature_core proj dirVec logfn land rid os ds origin dest).top_exposure_dirs.length = 3 ∧
      (V1.signature_core proj dirVec logfn land rid os ds origin dest).top_exposure_dirs.Nodup ∧
      (∀ nm ∈ (V1.signature_core proj dirVec logfn land rid os ds origin dest).top_exposure_dirs,
        nm ∈ compassNames) ∧
      (∀ e ∈ (V1.signature_core proj dirVec logfn land rid os ds origin dest).exposure_by_dir,
        ∀ f ∈ (V1.signature_core proj dirVec logfn land rid os ds origin dest).exposure_by_dir,
        e.1 ∈ (V1.signature_core proj dirVec logfn land rid os ds origin dest).top_exposure_dirs →
        f.1 ∉ (V1.signature_core proj dirVec logfn land rid os ds origin dest).top_exposure_dirs →
        f.2 ≤ e.2) ∧
      (∀ i j : ℕ, i < 16 → j < 16 → i < j →
        ((V1.signature_core proj dirVec logfn land rid os ds origin dest).exposure_by_dir.getD i ("", 0)).2 =
          ((V1.signature_core proj dirVec logfn land rid os ds origin dest).exposure_by_dir.getD j ("", 0)).2 →
        ((V1.signature_core proj dirVec logfn land rid os ds origin dest).exposure_by_dir.getD j ("", 0)).1 ∈
          (V1.signature_core proj dirVec logfn land rid os ds origin dest).top_exposure_dirs →
        ((V1.signature_core proj dirVec logfn land rid os ds origin dest).exposure_by_dir.getD i ("", 0)).1 ∈
          (V1.signature_core proj dirVec logfn land rid os ds origin dest).top_exposure_dirs) ∧
      (∀ a b : String, List.Sublist [a, b]
          (V1.signature_core proj dirVec logfn land rid os ds origin dest).top_exposure_dirs →
        ∀ i j : ℕ, i < 16 → j < 16 →
        ((V1.signature_core proj dirVec logfn land rid os ds origin dest).exposure_by_dir.getD i ("", 0)).1 = a →
        ((V1.signature_core proj dirVec logfn land rid os ds origin dest).exposure_by_dir.getD j ("", 0)).1 = b →
        (((V1.signature_core proj dirVec logfn land rid os ds origin dest).exposure_by_dir.getD j ("", 0)).2 <
            ((V1.signature_core proj dirVec logfn land rid os ds origin dest).exposure_by_dir.getD i ("", 0)).2 ∨
          (((V1.signature_core proj dirVec logfn land rid os ds origin dest).exposure_by_dir.getD i ("", 0)).2 =
            ((V1.signature_core proj dirVec logfn land rid os ds origin dest).exposure_by_dir.getD j ("", 0)).2 ∧
            i < j)))) ∧
    ((V2.signature_core proj dirVec land rid os ds origin dest).mean_shelter =
        round_to 3
          (((V2.signature_core proj dirVec land rid os ds origin dest).shelter_ratio_by_dir.map
            Prod.snd).sum / 16) ∧
      (V2.signature_core proj dirVec land rid os ds origin dest).top_exposure_dirs.length = 3 ∧
      (V2.signature_core proj dirVec land rid os ds origin dest).top_exposure_dirs.Nodup ∧
      (∀ nm ∈ (V2.signature_core proj dirVec land rid os ds origin dest).top_exposure_dirs,
        nm ∈ compassNames) ∧
      (∀ e ∈ (V2.signature_core proj dirVec land rid os ds origin dest).shelter_ratio_by_dir,
        ∀ f ∈ (V2.signature_core proj dirVec land rid os ds origin dest).shelter_ratio_by_dir,
        e.1 ∈ (V2.signature_core proj dirVec land rid os ds origin dest).top_exposure_dirs →
        f.1 ∉ (V2.signature_core proj dirVec land rid os ds origin dest).top_exposure_dirs →
        f.2 ≤ e.2) ∧
      (∀ i j : ℕ, i < 16 → j < 16 → i < j →
        ((V2.signature_core proj dirVec land rid os ds origin dest).shelter_ratio_by_dir.getD i ("", 0)).2 =
          ((V2.signature_core proj dirVec land rid os ds origin dest).shelter_ratio_by_dir.getD j ("", 0)).2 →
        ((V2.signature_core proj dirVec land rid os ds origin dest).shelter_ratio_by_dir.getD j ("", 0)).1 ∈
          (V2.signature_core proj dirVec land rid os ds origin dest).top_exposure_dirs →
        ((V2.signature_core proj dirVec land rid os ds origin dest).shelter_ratio_by_dir.getD i ("", 0)).1 ∈
          (V2.signature_core proj dirVec land rid os ds origin dest).top_exposure_dirs) ∧
      (∀ a b : String, List.Sublist [a, b]
          (V2.signature_core proj dirVec land rid os ds origin dest).top_exposure_dirs →
        ∀ i j : ℕ, i < 16 → j < 16 →
        ((V2.signature_core proj dirVec land rid os ds origin dest).shelter_ratio_by_dir.getD i ("", 0)).1 = a →
        ((V2.signature_core proj dirVec land rid os ds origin dest).shelter_ratio_by_dir.getD j ("", 0)).1 = b →
        (((V2.signature_core proj dirVec land rid os ds origin dest).shelter_ratio_by_dir.getD j ("", 0)).2 <
            ((V2.signature_core proj dirVec land rid os ds origin dest).shelter_ratio_by_dir.getD i ("", 0)).2 ∨
          (((V2.signature_core proj dirVec land rid os ds origin dest).shelter_ratio_by_dir.getD i ("", 0)).2 =
            ((V2.signature_core proj dirVec land rid os ds origin dest).shelter_ratio_by_dir.getD j ("", 0)).2 ∧
            i < j)))) := by
  constructor
  · have hkeys := V1.sigV1_keys proj dirVec logfn land rid os ds origin dest
    have htop := V1.sigV1_top proj dirVec logfn land rid os ds origin dest
    have hlen : (V1.signature_core proj dirVec logfn land rid os ds origin dest).exposure_by_dir.length = 16 := by
      have := congrArg List.length hkeys
      rw [List.length_map] at this
      rw [this]
      rfl
    obtain ⟨h1, h2, h3, h4, h5, h6⟩ := scored_top_props _ hkeys
    refine ⟨?_, ?_, ?_, ?_, ?_, ?_, ?_⟩
    · rw [V1.sigV1_mean]
      unfold listMean
      rw [List.length_map, hlen]
      norm_num
    · rw [htop]; exact h1
    · rw [htop]; exact h2
    · rw [htop]; exact h3
    · rw [htop]; exact h4
    · rw [htop]; exact h5
    · rw [htop]; exact h6
  · have hkeys := V2.sigV2_keys proj dirVec land rid os ds origin dest
    have htop := V2.sigV2_top proj dirVec land rid os ds origin dest
    have hlen : (V2.signature_core proj dirVec land rid os ds origin dest).shelter_ratio_by_dir.length = 16 := by
      have := congrArg List.length hkeys
      rw [List.length_map] at this
      rw [this]
      rfl
    obtain ⟨h1, h2, h3, h4, h5, h6⟩ := scored_top_props _ hkeys
    refine ⟨?_, ?_, ?_, ?_, ?_, ?_, ?_⟩
    · rw [V2.sigV2_mean]
      unfold listMean
      rw [List.length_map, hlen]
      norm_num
    · rw [htop]; exact h1
    · rw [htop]; exact h2
    · rw [htop]; exact h3
    · rw [htop]; exact h4
    · rw [htop]; exact h5
    · rw [htop]; exact h6

/-- Witness for C8 at a concrete configuration (empty land mask). -/
theorem claim_C8_witness :
    (∀ e ∈ (V1.signature_core (K := ℚ) (fun g => (g.lat, g.lon)) (fun d => (d, d))
        id (fun _ => false) "r" "o" "d" ⟨0, 0⟩ ⟨1, 1⟩).exposure_by_dir,
      0 ≤ e.2 ∧ e.2 ≤ 1) ∧
    (∀ e ∈ (V2.signature_core (K := ℚ) (fun g => (g.lat, g.lon)) (fun d => (d, d))
        (fun _ => false) "r" "o" "d" ⟨0, 0⟩ ⟨1, 1⟩).shelter_ratio_by_dir,
      0 ≤ e.2 ∧ e.2 ≤ 1) :=
  ⟨(claim_C8 (K := ℚ) (fun g => (g.lat, g.lon)) (fun d => (d, d)) id
      (fun _ => false) "r" "o" "d" ⟨0, 0⟩ ⟨1, 1⟩).1.2.2.2,
    (claim_C8 (K := ℚ) (fun g => (g.lat, g.lon)) (fun d => (d, d)) id
      (fun _ => false) "r" "o" "d" ⟨0, 0⟩ ⟨1, 1⟩).2.2.2.2⟩

/-- Witness for C9 (amended) at a concrete configuration. -/
theorem claim_C9_witness :
    (V2.signature_core (K := ℚ) (fun g => (g.lat, g.lon)) (fun d => (d, d))
        (fun _ => false) "r" "o" "d" ⟨0, 0⟩ ⟨1, 1⟩).mean_shelter =
      round_to 3
        (((V2.signature_core (K := ℚ) (fun g => (g.lat, g.lon)) (fun d => (d, d))
          (fun _ => false) "r" "o" "d" ⟨0, 0⟩ ⟨1, 1⟩).shelter_ratio_by_dir.map
            Prod.snd).sum / 16) ∧
    (V2.signature_core (K := ℚ) (fun g => (g.lat, g.lon)) (fun d => (d, d))
        (fun _ => false) "r" "o" "d" ⟨0, 0⟩ ⟨1, 1⟩).top_exposure_dirs.length = 3 :=
  ⟨(claim_C9_amended (K := ℚ) (fun g => (g.lat, g.lon)) (fun d => (d, d)) id
      (fun _ => false) "r" "o" "d" ⟨0, 0⟩ ⟨1, 1⟩).2.1,
    (claim_C9_amended (K := ℚ) (fun g => (g.lat, g.lon)) (fun d => (d, d)) id
      (fun _ => false) "r" "o" "d" ⟨0, 0⟩ ⟨1, 1⟩).2.2.1⟩

/-- C7 counterexample: the stored representative distance is
round(median, 2), not the median itself: a direction whose two middle
range-capped measurements are 0.05 km and 0.10 km has median 0.075 km
but stores 0.08 km. -/
theorem claim_C7_counterexample :
    (V2.direction_stats (List.replicate 25 ((1 : ℚ) / 20) ++
      List.replicate 25 (1 / 10))).2 = 2 / 25 ∧
    median ((List.replicate 25 ((1 : ℚ) / 20) ++ List.replicate 25 (1 / 10)).map
      fun d => min d V2.MAX_RAY_KM) = 3 / 40 ∧
    (V2.direction_stats (List.replicate 25 ((1 : ℚ) / 20) ++
      List.replicate 25 (1 / 10))).2 ≠
      median ((List.replicate 25 ((1 : ℚ) / 20) ++ List.replicate 25 (1 / 10)).map
        fun d => min d V2.MAX_RAY_KM) := by
  have hcap : (List.replicate 25 ((1 : ℚ) / 20) ++ List.replicate 25 (1 / 10)).map
      (fun d => min d V2.MAX_RAY_KM) =
      List.replicate 25 ((1 : ℚ) / 20) ++ List.replicate 25 (1 / 10) := by
    rw [List.map_append, List.map_replicate, List.map_replicate]
    rw [show min ((1 : ℚ) / 20) V2.MAX_RAY_KM = 1 / 20 by
      norm_num [V2.MAX_RAY_KM, min_def]]
    rw [show min ((1 : ℚ) / 10) V2.MAX_RAY_KM = 1 / 10 by
      norm_num [V2.MAX_RAY_KM, min_def]]
  have hsorted : (List.replicate 25 ((1 : ℚ) / 20) ++
      List.replicate 25 (1 / 10)).Sorted (· ≤ ·) := by
    unfold List.Sorted
    rw [List.pairwise_append]
    refine ⟨List.pairwise_replicate.mpr ?_, List.pairwise_replicate.mpr ?_, ?_⟩
    · right
      norm_num
    · right
      norm_num
    · intro x hx y hy
      rw [List.eq_of_mem_replicate hx, List.eq_of_mem_replicate hy]
      norm_num
  have hmed : median (List.replicate 25 ((1 : ℚ) / 20) ++
      List.replicate 25 (1 / 10)) = 3 / 40 := by
    rw [median_of_sorted _ hsorted]
    have hlen : (List.replicate 25 ((1 : ℚ) / 20) ++
        List.replicate 25 (1 / 10)).length = 50 := by
      simp
    rw [hlen]
    rw [if_neg (by norm_num)]
    have h24 : (List.replicate 25 ((1 : ℚ) / 20) ++
        List.replicate 25 (1 / 10)).getD (50 / 2 - 1) 0 = 1 / 20 := by
      have hb : (50 : ℕ) / 2 - 1 < (List.replicate 25 ((1 : ℚ) / 20) ++
          List.replicate 25 (1 / 10)).length := by
        rw [hlen]
        omega
      rw [List.getD_eq_getElem _ 0 hb]
      rw [List.getElem_append_left (by simp)]
      simp
    have h25 : (List.replicate 25 ((1 : ℚ) / 20) ++
        List.replicate 25 (1 / 10)).getD (50 / 2) 0 = 1 / 10 := by
      have hb : (50 : ℕ) / 2 < (List.replicate 25 ((1 : ℚ) / 20) ++
          List.replicate 25 (1 / 10)).length := by
        rw [hlen]
        norm_num
      rw [List.getD_eq_getElem _ 0 hb]
      rw [List.getElem_append_right (by simp)]
      simp
    rw [h24, h25]
    norm_num
  have hstored : (V2.direction_stats (List.replicate 25 ((1 : ℚ) / 20) ++
      List.replicate 25 (1 / 10))).2 = 2 / 25 := by
    rw [V2.direction_stats_snd, hcap, hmed]
    unfold round_to
    rw [show ((3 : ℚ) / 40) * 10 ^ 2 = 15 / 2 by norm_num]
    rw [round_eq]
    rw [show ((15 : ℚ) / 2) + 1 / 2 = 8 by norm_num]
    rw [show ⌊(8 : ℚ)⌋ = 8 from Int.floor_intCast 8]
    norm_num
  refine ⟨hstored, by rw [hcap, hmed], ?_⟩
  rw [hstored, hcap, hmed]
  norm_num
